import Mathlib

/-!
Shallow embedding of the core logic of the ai-tandem repository:

* the paragliding takeoff scorer of `src/app/api/weather-forecast/route.ts`
  (the version with the hard safety gate: `calculateCloudBase`,
  `getWindDirectionScore`, `getWindSpeedScore`, `calculateTakeoffPercentage`);
* the review analysis loop and the analytics aggregation of the
  analyze-reviews route (`src/unnamed/part_006`: `POST` and
  `aggregateAnalytics`).

JavaScript numbers are modelled as rationals (`ℚ`); `Math.round` is
Mathlib's `round` (`round x = ⌊x + 1/2⌋`, which agrees with JS `Math.round`
on every rational, negative halves included).  JS objects with string keys
are stored as insertion-ordered association lists; where the source
enumerates an object (`Object.entries` on the phrase counters),
`entriesOf` applies the ECMAScript own-property order: array-index-like
keys first in ascending numeric order, then the remaining string keys in
insertion order.
-/

set_option linter.unusedVariables false

namespace Weather

/-- Default of the env var `BREITENBERG_ELEVATION` ("1690"). -/
def BREITENBERG_ELEVATION : ℚ := 1690

/-- One entry of `WIND_DIRECTION_RANGES`.  The source field `end` is a Lean
keyword and is embedded here as `stop`. -/
structure WindDirectionRange where
  start : ℚ
  stop : ℚ
  score : ℚ
deriving Repr, DecidableEq

/-- `DEFAULT_WIND_DIRECTION_RANGES =
"0-45:100,45-90:100,90-135:90,135-180:60,180-225:30,225-270:20,270-315:10,315-360:100"`
after `parseWindDirectionRanges`. -/
def WIND_DIRECTION_RANGES : List WindDirectionRange :=
  [⟨0, 45, 100⟩, ⟨45, 90, 100⟩, ⟨90, 135, 90⟩, ⟨135, 180, 60⟩,
   ⟨180, 225, 30⟩, ⟨225, 270, 20⟩, ⟨270, 315, 10⟩, ⟨315, 360, 100⟩]

/-- Default of `WIND_SPEED_0_5_SCORE`. -/
def WIND_SPEED_0_5_SCORE : ℚ := 50

/-- Default of `WIND_SPEED_5_8_SCORE`. -/
def WIND_SPEED_5_8_SCORE : ℚ := 70

/-- Default of `WIND_SPEED_8_24_SCORE`. -/
def WIND_SPEED_8_24_SCORE : ℚ := 100

/-- Default of `WIND_SPEED_24_29_SCORE`. -/
def WIND_SPEED_24_29_SCORE : ℚ := 60

/-- Default of `WIND_SPEED_29_35_SCORE`. -/
def WIND_SPEED_29_35_SCORE : ℚ := 30

/-- Default of `WIND_SPEED_35_PLUS_SCORE`. -/
def WIND_SPEED_35_PLUS_SCORE : ℚ := 10

/-- Default of `WEIGHT_WIND_DIRECTION`. -/
def WEIGHT_WIND_DIRECTION : ℚ := 40

/-- Default of `WEIGHT_WIND_SPEED`. -/
def WEIGHT_WIND_SPEED : ℚ := 30

/-- Default of `WEIGHT_PRECIPITATION`. -/
def WEIGHT_PRECIPITATION : ℚ := 20

/-- Default of `WEIGHT_CLOUD_COVER`. -/
def WEIGHT_CLOUD_COVER : ℚ := 10

/-- Default of `PRECIPITATION_PENALTY_PER_MM`. -/
def PRECIPITATION_PENALTY_PER_MM : ℚ := 20

/-- Default of `MIN_CLOUD_BASE_MARGIN`. -/
def MIN_CLOUD_BASE_MARGIN : ℚ := 200

/-- Default of `MIN_WIND_SPEED_FOR_DIRECTION_CHECK`. -/
def MIN_WIND_SPEED_FOR_DIRECTION_CHECK : ℚ := 5

/-- Default of `MAX_WIND_SPEED_KMH`. -/
def MAX_WIND_SPEED_KMH : ℚ := 35

/-- Default of `MAX_PRECIPITATION_MM`. -/
def MAX_PRECIPITATION_MM : ℚ := 5

/-- Default of `DANGEROUS_WIND_DIRECTION_THRESHOLD`. -/
def DANGEROUS_WIND_DIRECTION_THRESHOLD : ℚ := 50

/-- `calculateCloudBase(temperature, dewpoint)`:
`Math.round(BREITENBERG_ELEVATION + ((temperature - dewpoint) / 2.5) * 1000 * 0.3048)`. -/
def calculateCloudBase (temperature dewpoint : ℚ) : ℤ :=
  let tempDiff := temperature - dewpoint
  let cloudBaseFeet := tempDiff / 2.5 * 1000
  let cloudBaseMeters := cloudBaseFeet * 0.3048
  round (BREITENBERG_ELEVATION + cloudBaseMeters)

/-- The containment test the body of `getWindDirectionScore` applies to one
range: a range whose `start` exceeds its `end` wraps the 360/0 boundary. -/
def rangeMatches (range : WindDirectionRange) (windDirection : ℚ) : Bool :=
  if range.start > range.stop then
    windDirection ≥ range.start || windDirection ≤ range.stop
  else
    windDirection ≥ range.start && windDirection ≤ range.stop

/-- The `for`-loop with early `return` of `getWindDirectionScore`, over an
arbitrary configured range list; falls through to the default `return 50`. -/
def getWindDirectionScoreIn : List WindDirectionRange → ℚ → ℚ
  | [], _ => 50
  | range :: rest, windDirection =>
      if rangeMatches range windDirection then range.score
      else getWindDirectionScoreIn rest windDirection

/-- `getWindDirectionScore(windDirection)` with the configured
`WIND_DIRECTION_RANGES`. -/
def getWindDirectionScore (windDirection : ℚ) : ℚ :=
  getWindDirectionScoreIn WIND_DIRECTION_RANGES windDirection

/-- `isWindDirectionDangerous(windDirection)`. -/
def isWindDirectionDangerous (windDirection : ℚ) : Bool :=
  getWindDirectionScore windDirection ≤ DANGEROUS_WIND_DIRECTION_THRESHOLD

/-- `getDirectionName(degrees)`: first compass sector with
`degrees >= min && degrees < max`, defaulting to "N". -/
def getDirectionName (degrees : ℚ) : String :=
  let directions : List (String × ℚ × ℚ) :=
    [("N", 0, 22.5), ("NNE", 22.5, 45), ("NE", 45, 67.5), ("ENE", 67.5, 90),
     ("E", 90, 112.5), ("ESE", 112.5, 135), ("SE", 135, 157.5), ("SSE", 157.5, 180),
     ("S", 180, 202.5), ("SSW", 202.5, 225), ("SW", 225, 247.5), ("WSW", 247.5, 270),
     ("W", 270, 292.5), ("WNW", 292.5, 315), ("NW", 315, 337.5), ("NNW", 337.5, 360)]
  match directions.find? (fun d => decide (degrees ≥ d.2.1) && decide (degrees < d.2.2)) with
  | some d => d.1
  | none => "N"

/-- `getQualityLabel(score)`. -/
def getQualityLabel (score : ℚ) : String :=
  if score ≥ 90 then "Excellent"
  else if score ≥ 70 then "Good"
  else if score ≥ 50 then "Acceptable"
  else if score ≥ 30 then "Poor"
  else "Bad"

/-- `getWindDirectionLabel(windDirection)`. -/
def getWindDirectionLabel (windDirection : ℚ) : String :=
  getDirectionName windDirection ++ " (" ++ getQualityLabel (getWindDirectionScore windDirection) ++ ")"

/-- `getWindSpeedLabel(windSpeed)`. -/
def getWindSpeedLabel (windSpeed : ℚ) : String :=
  if windSpeed < 5 then "Too calm"
  else if windSpeed ≥ 5 ∧ windSpeed ≤ 8 then "Light winds"
  else if windSpeed > 8 ∧ windSpeed ≤ 24 then "Perfect range"
  else if windSpeed > 24 ∧ windSpeed ≤ 29 then "Getting strong"
  else if windSpeed > 29 ∧ windSpeed ≤ 35 then "Too strong"
  else "Not flyable"

/-- `getWindSpeedScore(windSpeed)`. -/
def getWindSpeedScore (windSpeed : ℚ) : ℚ :=
  if windSpeed < 5 then WIND_SPEED_0_5_SCORE
  else if windSpeed ≥ 5 ∧ windSpeed ≤ 8 then WIND_SPEED_5_8_SCORE
  else if windSpeed > 8 ∧ windSpeed ≤ 24 then WIND_SPEED_8_24_SCORE
  else if windSpeed > 24 ∧ windSpeed ≤ 29 then WIND_SPEED_24_29_SCORE
  else if windSpeed > 29 ∧ windSpeed ≤ 35 then WIND_SPEED_29_35_SCORE
  else WIND_SPEED_35_PLUS_SCORE

/-- One element of the `safetyViolations` string array.  Each constructor
stands for one of the four distinct message templates pushed by
`calculateTakeoffPercentage`, carrying the interpolated values; messages
from different templates are distinct strings, which the inductive models
as distinct constructors. -/
inductive SafetyViolation where
  /-- `Cloud base X m is below minimum Y m`. -/
  | cloudBaseLow (cloudBase minRequired : ℚ)
  /-- `Wind too strong: X km/h exceeds maximum Y km/h`. -/
  | windTooStrong (windSpeed maxAllowed : ℚ)
  /-- `Heavy rain: X mm exceeds maximum Y mm`. -/
  | heavyRain (precipitation maxAllowed : ℚ)
  /-- `Dangerous wind direction: NAME (D deg) with S km/h`. -/
  | dangerousDirection (dirName : String) (windDirection windSpeed : ℚ)
deriving Repr, DecidableEq

/-- One per-category record of the `CalculationBreakdown`. -/
structure CategoryBreakdown where
  value : ℚ
  score : ℚ
  weight : ℚ
  points : ℚ
  label : String
deriving Repr, DecidableEq

/-- The `cloudBase` record of the `CalculationBreakdown`. -/
structure CloudBaseInfo where
  value : ℚ
  minRequired : ℚ
  isSafe : Bool
deriving Repr, DecidableEq

/-- The `CalculationBreakdown` interface of the source. -/
structure CalculationBreakdown where
  windDirection : CategoryBreakdown
  windSpeed : CategoryBreakdown
  precipitation : CategoryBreakdown
  cloudCover : CategoryBreakdown
  cloudBase : CloudBaseInfo
  safetyViolations : List SafetyViolation
  total : ℤ
deriving Repr, DecidableEq

/-- The return type of `calculateTakeoffPercentage`. -/
structure TakeoffResult where
  percentage : ℤ
  conditions : List String
  breakdown : CalculationBreakdown
deriving Repr, DecidableEq

/-- The cloud cover label used in both branches:
`cloudCover < 30 ? "Clear" : cloudCover < 70 ? "Partly cloudy" : "Heavy clouds"`. -/
def cloudCoverLabel (cloudCover : ℚ) : String :=
  if cloudCover < 30 then "Clear" else if cloudCover < 70 then "Partly cloudy" else "Heavy clouds"

/-- `minRequiredCloudBase = BREITENBERG_ELEVATION + MIN_CLOUD_BASE_MARGIN`. -/
def minRequiredCloudBase : ℚ := BREITENBERG_ELEVATION + MIN_CLOUD_BASE_MARGIN

/-- The `safetyViolations` array after the four hard-limit checks of
`calculateTakeoffPercentage`, pushed in source order (cloud base, wind
speed, precipitation, wind direction). -/
def safetyViolationsOf (precipitation windSpeed windDirection cloudBase : ℚ) :
    List SafetyViolation :=
  (if cloudBase ≥ minRequiredCloudBase then []
   else [.cloudBaseLow cloudBase minRequiredCloudBase]) ++
  (if windSpeed > MAX_WIND_SPEED_KMH then [.windTooStrong windSpeed MAX_WIND_SPEED_KMH] else []) ++
  (if precipitation > MAX_PRECIPITATION_MM then [.heavyRain precipitation MAX_PRECIPITATION_MM] else []) ++
  (if windSpeed > MIN_WIND_SPEED_FOR_DIRECTION_CHECK ∧ isWindDirectionDangerous windDirection then
    [.dangerousDirection (getDirectionName windDirection) windDirection windSpeed] else [])

/-- The `return` taken by `calculateTakeoffPercentage` when
`safetyViolations.length > 0`: percentage 0 and an all-zero breakdown
carrying the violation list. -/
def takeoffGateResult (precipitation windSpeed windDirection cloudCover cloudBase : ℚ) :
    TakeoffResult :=
  { percentage := 0
    conditions := ["✗ NOT FLYABLE - Safety constraints violated"]
    breakdown :=
      { windDirection := ⟨windDirection, 0, WEIGHT_WIND_DIRECTION, 0, getWindDirectionLabel windDirection⟩
        windSpeed := ⟨windSpeed, 0, WEIGHT_WIND_SPEED, 0, getWindSpeedLabel windSpeed⟩
        precipitation := ⟨precipitation, 0, WEIGHT_PRECIPITATION, 0, toString precipitation ++ "mm rain"⟩
        cloudCover := ⟨cloudCover, 0, WEIGHT_CLOUD_COVER, 0, cloudCoverLabel cloudCover⟩
        cloudBase := ⟨cloudBase, minRequiredCloudBase, cloudBase ≥ minRequiredCloudBase⟩
        safetyViolations := safetyViolationsOf precipitation windSpeed windDirection cloudBase
        total := 0 } }

/-- The `precipScore` of the weighted branch: 100 at zero precipitation,
otherwise `Math.max(0, 100 - precipitation * PRECIPITATION_PENALTY_PER_MM)`. -/
def precipScoreOf (precipitation : ℚ) : ℚ :=
  if precipitation > 0 then max 0 (100 - precipitation * PRECIPITATION_PENALTY_PER_MM) else 100

/-- The `cloudScore` of the weighted branch: `Math.max(0, 100 - cloudCover)`. -/
def cloudScoreOf (cloudCover : ℚ) : ℚ := max 0 (100 - cloudCover)

/-- The weighted branch of `calculateTakeoffPercentage` (no safety
violation): four category scores, `points = score * weight / 100`, breakdown
points rounded to one decimal, total and percentage `Math.round`ed. -/
def takeoffWeightedResult (precipitation windSpeed windDirection cloudCover cloudBase : ℚ) :
    TakeoffResult :=
  let directionScore := getWindDirectionScore windDirection
  let directionPoints := directionScore * WEIGHT_WIND_DIRECTION / 100
  let speedScore := getWindSpeedScore windSpeed
  let speedPoints := speedScore * WEIGHT_WIND_SPEED / 100
  let precipScore := precipScoreOf precipitation
  let precipPoints := precipScore * WEIGHT_PRECIPITATION / 100
  let precipLabel := if precipitation > 0 then toString precipitation ++ "mm rain" else "No rain"
  let cloudScore := cloudScoreOf cloudCover
  let cloudPoints := cloudScore * WEIGHT_CLOUD_COVER / 100
  let conditions :=
    [if directionScore ≥ 90 then "✓ Optimal wind direction"
     else if directionScore ≥ 60 then "⚠ Acceptable wind direction"
     else "✗ Poor wind direction",
     if speedScore ≥ 90 then "✓ Ideal wind speed"
     else if speedScore ≥ 60 then "⚠ Manageable wind speed"
     else if windSpeed > 29 then "✗ Wind too strong"
     else "⚠ Wind too light",
     if precipitation > 0 then
       (if precipitation > 2 then "✗ Rain expected" else "⚠ Light precipitation")
     else "✓ No precipitation",
     if cloudCover < 30 then "✓ Clear skies"
     else if cloudCover < 70 then "⚠ Partly cloudy"
     else "⚠ Heavy cloud cover"]
  let totalScore := directionPoints + speedPoints + precipPoints + cloudPoints
  { percentage := round totalScore
    conditions := conditions
    breakdown :=
      { windDirection := ⟨windDirection, directionScore, WEIGHT_WIND_DIRECTION,
          (round (directionPoints * 10) : ℚ) / 10, getWindDirectionLabel windDirection⟩
        windSpeed := ⟨windSpeed, speedScore, WEIGHT_WIND_SPEED,
          (round (speedPoints * 10) : ℚ) / 10, getWindSpeedLabel windSpeed⟩
        precipitation := ⟨precipitation, precipScore, WEIGHT_PRECIPITATION,
          (round (precipPoints * 10) : ℚ) / 10, precipLabel⟩
        cloudCover := ⟨cloudCover, cloudScore, WEIGHT_CLOUD_COVER,
          (round (cloudPoints * 10) : ℚ) / 10, cloudCoverLabel cloudCover⟩
        cloudBase := ⟨cloudBase, minRequiredCloudBase, cloudBase ≥ minRequiredCloudBase⟩
        safetyViolations := safetyViolationsOf precipitation windSpeed windDirection cloudBase
        total := round totalScore } }

/-- `calculateTakeoffPercentage(temperature, dewpoint, precipitation,
windSpeed, windDirection, cloudCover, cloudBase)` of the safety-gated
version of the route.  `temperature` and `dewpoint` are parameters of the
source function but unused in its body (the cloud base is passed in
already computed). -/
def calculateTakeoffPercentage (temperature dewpoint precipitation windSpeed
    windDirection cloudCover cloudBase : ℚ) : TakeoffResult :=
  if (safetyViolationsOf precipitation windSpeed windDirection cloudBase).length > 0 then
    takeoffGateResult precipitation windSpeed windDirection cloudCover cloudBase
  else
    takeoffWeightedResult precipitation windSpeed windDirection cloudCover cloudBase

/-- Containment of a wind direction in one configured range, as the spec
words it: a range whose start is greater than its end wraps the 0/360
boundary and contains `d` iff `d ≥ start` or `d ≤ end`; otherwise it
contains `d` iff `start ≤ d ≤ end`. -/
def inRange (r : WindDirectionRange) (d : ℚ) : Prop :=
  if r.start > r.stop then r.start ≤ d ∨ d ≤ r.stop else r.start ≤ d ∧ d ≤ r.stop

instance (r : WindDirectionRange) (d : ℚ) : Decidable (inRange r d) :=
  if h : r.start > r.stop then
    decidable_of_iff (r.start ≤ d ∨ d ≤ r.stop) (by simp [inRange, h])
  else
    decidable_of_iff (r.start ≤ d ∧ d ≤ r.stop) (by simp [inRange, h])

/-- The first configured range containing `d`, in configuration order. -/
def firstContaining (ranges : List WindDirectionRange) (d : ℚ) :
    Option WindDirectionRange :=
  ranges.find? (fun r => decide (inRange r d))

end Weather

namespace Reviews

/-- The `SentimentScores` interface of the analyze-reviews route. -/
structure SentimentScores where
  overallExperience : ℚ
  safetyProfessionalism : ℚ
  valueForMoney : ℚ
  staffServiceQuality : ℚ
deriving Repr, DecidableEq

/-- The `TopicsMentioned` interface. -/
structure TopicsMentioned where
  safety : Bool
  sceneryLocation : Bool
  firstTimeExperience : Bool
  wouldRecommend : Bool
  issuesProblems : Bool
deriving Repr, DecidableEq

/-- The `'high' | 'medium' | 'low'` confidence tag of a `PilotMention`. -/
inductive Confidence where
  | high
  | medium
  | low
deriving Repr, DecidableEq

/-- The `PilotMention` interface. -/
structure PilotMention where
  pilotName : String
  rating : ℚ
  confidence : Confidence
  sentimentScores : SentimentScores
  positiveHighlights : List String
  concerns : List String
deriving Repr, DecidableEq

/-- The `ReviewAnalysis` interface. -/
structure ReviewAnalysis where
  reviewId : String
  sentimentScores : SentimentScores
  topicsMentioned : TopicsMentioned
  positiveHighlights : List String
  concerns : List String
  hiddenCosts : List String
  suggestions : List String
  keyWords : List String
  pilots : List PilotMention
  analyzedAt : String
deriving Repr, DecidableEq

/-- The `Review` interface (fields the analysis route reads). -/
structure Review where
  id : String
  reviewerName : String
  starRating : ℚ
  date : String
  reviewText : String
  isTranslated : Bool
  scrapedAt : String
deriving Repr, DecidableEq

/-- `AnalysisCache`: a JS object keyed by review id, modelled as an
insertion-ordered association list (property iteration order of JS objects
for non-integer-index string keys). -/
abbrev AnalysisCache := List (String × ReviewAnalysis)

/-- Read `cache[id]`: the entry of the matching key, if any. -/
def cacheLookup? (cache : AnalysisCache) (id : String) : Option ReviewAnalysis :=
  (cache.find? (fun e => e.1 = id)).map (fun e => e.2)

/-- Write `cache[id] = a`: an existing key is updated in place, a new key
is appended (JS object assignment keeps first-insertion position). -/
def cacheSet (cache : AnalysisCache) (id : String) (a : ReviewAnalysis) : AnalysisCache :=
  match cache with
  | [] => [(id, a)]
  | (k, v) :: rest => if k = id then (id, a) :: rest else (k, v) :: cacheSet rest id a

/-- The JSON object extracted from the model response.  Every field may be
absent from the model output; `Option` models absence, resolved by the
`|| default` accesses at the store site.  A missing `sentimentScores` is
stored as the empty object `{}` in the source, whose numeric fields read
as 0 through every later `|| 0` access; it is modelled as the all-zero
record.  A missing `topicsMentioned` is stored as `{}`, whose flags read
as false; it is modelled as the all-false record. -/
structure ParsedResult where
  sentimentScores : Option SentimentScores
  topicsMentioned : Option TopicsMentioned
  positiveHighlights : Option (List String)
  concerns : Option (List String)
  hiddenCosts : Option (List String)
  suggestions : Option (List String)
  keyWords : Option (List String)
  pilots : Option (List PilotMention)
deriving Repr, DecidableEq

/-- All-zero sentiment record (the reading of the `{}` default). -/
def emptySentiments : SentimentScores := ⟨0, 0, 0, 0⟩

/-- All-false topic record (the reading of the `{}` default). -/
def emptyTopics : TopicsMentioned := ⟨false, false, false, false, false⟩

/-- The observable result of one review's model call together with the
parsing of its response text, as the per-review `try` block of the `POST`
handler distinguishes them:
* `errCall` — some step throws (network error, non-ok HTTP status, the
  30-second timeout, an unparseable response body, or a brace-delimited
  substring that itself fails `JSON.parse`, which is not caught locally):
  control reaches the per-review `catch` block;
* `okParsed p` — a JSON object `p` was obtained, either directly or from
  the `\x7b[\s\S]*\x7d` brace-substring fallback;
* `noJsonFound` — the content is not JSON and has no brace-delimited
  substring, so the hard-coded default result built from the star rating
  is used. -/
inductive ModelOutcome where
  | errCall
  | okParsed (p : ParsedResult)
  | noJsonFound
deriving Repr, DecidableEq

/-- The hard-coded "Default empty analysis" the parse fallback builds when
no JSON can be found in the response: all four sentiment metrics are
`review.starRating * 20`, all topics false, all lists empty. -/
def defaultParsedResult (review : Review) : ParsedResult :=
  { sentimentScores := some ⟨review.starRating * 20, review.starRating * 20,
      review.starRating * 20, review.starRating * 20⟩
    topicsMentioned := some emptyTopics
    positiveHighlights := some []
    concerns := some []
    hiddenCosts := some []
    suggestions := some []
    keyWords := some []
    pilots := some [] }

/-- The `cache[review.id] = {...}` store of the success path, with its
`|| default` accesses. -/
def storeEntry (review : Review) (p : ParsedResult) (now : String) : ReviewAnalysis :=
  { reviewId := review.id
    sentimentScores := p.sentimentScores.getD emptySentiments
    topicsMentioned := p.topicsMentioned.getD emptyTopics
    positiveHighlights := p.positiveHighlights.getD []
    concerns := p.concerns.getD []
    hiddenCosts := p.hiddenCosts.getD []
    suggestions := p.suggestions.getD []
    keyWords := p.keyWords.getD []
    pilots := p.pilots.getD []
    analyzedAt := now }

/-- The degraded entry the per-review `catch` block stores: overall
experience from the star rating, the other three metrics at the neutral
50, everything else empty. -/
def degradedEntry (review : Review) (now : String) : ReviewAnalysis :=
  { reviewId := review.id
    sentimentScores := ⟨review.starRating * 20, 50, 50, 50⟩
    topicsMentioned := emptyTopics
    positiveHighlights := []
    concerns := []
    hiddenCosts := []
    suggestions := []
    keyWords := []
    pilots := []
    analyzedAt := now }

/-- The running state of the analysis loop: the cache under mutation and
`analyzedCount`. -/
structure AnalyzeState where
  cache : AnalysisCache
  analyzedCount : Nat
deriving Repr, DecidableEq

/-- One iteration of the `for (const review of reviewsToAnalyze)` loop.
`outcome` gives each review's model-call result (the external world) and
`now` the `new Date().toISOString()` timestamp at its store.  A successful
parse or the no-JSON default increments `analyzedCount`; the `catch` block
stores the degraded entry without incrementing it. -/
def analyzeStep (outcome : Review → ModelOutcome) (now : Review → String)
    (st : AnalyzeState) (review : Review) : AnalyzeState :=
  match outcome review with
  | .okParsed p =>
      ⟨cacheSet st.cache review.id (storeEntry review p (now review)), st.analyzedCount + 1⟩
  | .noJsonFound =>
      ⟨cacheSet st.cache review.id (storeEntry review (defaultParsedResult review) (now review)),
        st.analyzedCount + 1⟩
  | .errCall =>
      ⟨cacheSet st.cache review.id (degradedEntry review (now review)), st.analyzedCount⟩

/-- The work-set selection:
`reviews.filter(review => analyzeAll || !cache[review.id])`. -/
def reviewsToAnalyze (reviews : List Review) (cache : AnalysisCache) (analyzeAll : Bool) :
    List Review :=
  reviews.filter (fun review => analyzeAll || (cacheLookup? cache review.id).isNone)

/-- The whole analysis loop of the `POST` handler: fold `analyzeStep` over
the work set, starting from the cache read from disk and a zero count. -/
def analyze (outcome : Review → ModelOutcome) (now : Review → String)
    (reviews : List Review) (cache : AnalysisCache) (analyzeAll : Bool) : AnalyzeState :=
  (reviewsToAnalyze reviews cache analyzeAll).foldl (analyzeStep outcome now) ⟨cache, 0⟩

/-- A count map (JS object used as a counter), insertion-ordered. -/
abbrev CountMap := List (String × Nat)

/-- `counts[key] = (counts[key] || 0) + 1`. -/
def bump (m : CountMap) (key : String) : CountMap :=
  match m with
  | [] => [(key, 1)]
  | (k, c) :: rest => if k = key then (k, c + 1) :: rest else (k, c) :: bump rest key

/-- `keys.forEach(key => counts[key] = (counts[key] || 0) + 1)`. -/
def bumpAll (m : CountMap) (keys : List String) : CountMap :=
  keys.foldl bump m

/-- Stable insertion into a list sorted by descending count: the new
element goes after every element whose count is at least its own.  This is
the position `Array.prototype.sort` (a stable sort) gives with the
comparator `(a, b) => b[1] - a[1]`. -/
def descInsert (x : String × Nat) : List (String × Nat) → List (String × Nat)
  | [] => [x]
  | y :: ys => if y.2 > x.2 then y :: descInsert x ys else x :: y :: ys

/-- `.sort((a, b) => b[1] - a[1])`: a stable sort by descending count,
modelled as a stable insertion sort. -/
def sortByCountDesc : List (String × Nat) → List (String × Nat)
  | [] => []
  | x :: xs => descInsert x (sortByCountDesc xs)

/-- Numeric value of a decimal digit string. -/
def digitsVal (cs : List Char) : Nat :=
  cs.foldl (fun n c => n * 10 + (c.toNat - 48)) 0

/-- ECMAScript array-index property key: the canonical decimal string of
an integer n with 0 ≤ n < 2^32 - 1 — digits only, no leading zero except
for "0" itself. -/
def isArrayIndexKey (s : String) : Bool :=
  let cs := s.data
  (!cs.isEmpty) && cs.all (fun c => c.isDigit) &&
  (cs = ['0'] || cs.head? != some '0') && digitsVal cs < 4294967295

/-- Numeric value of an array-index key (0 for other strings). -/
def arrayIndexVal (s : String) : Nat := digitsVal s.data

/-- Insert into a list sorted ascending by array-index value, after every
entry whose value is at most the new one. -/
def idxInsert (x : String × Nat) : List (String × Nat) → List (String × Nat)
  | [] => [x]
  | y :: ys => if arrayIndexVal y.1 ≤ arrayIndexVal x.1 then y :: idxInsert x ys
    else x :: y :: ys

/-- Sort counter entries ascending by array-index value. -/
def sortByIdxAsc : List (String × Nat) → List (String × Nat)
  | [] => []
  | x :: xs => idxInsert x (sortByIdxAsc xs)

/-- `Object.entries` of a counter object, in the ECMAScript own-property
enumeration order: array-index-like keys first in ascending numeric
order, then the remaining string keys in insertion (first-seen) order. -/
def entriesOf (m : CountMap) : List (String × Nat) :=
  sortByIdxAsc (m.filter (fun e => isArrayIndexKey e.1)) ++
  m.filter (fun e => !isArrayIndexKey e.1)

/-- Helper of `firstDedup`: keep each string not seen before, threading the
set of seen strings. -/
def firstDedupGo : List String → List String → List String
  | [], _ => []
  | x :: xs, seen => if x ∈ seen then firstDedupGo xs seen else x :: firstDedupGo xs (x :: seen)

/-- `[...new Set(xs)]`: deduplication by exact string equality keeping the
first occurrence of each string, in first-seen order. -/
def firstDedup (l : List String) : List String := firstDedupGo l []

/-- One value of the `PilotStats` map. -/
structure PilotStatsEntry where
  totalMentions : Nat
  ratings : List ℚ
  averageRating : ℚ
  reviews : List String
  averageSentimentScores : SentimentScores
  topPositiveHighlights : List (String × Nat)
  topConcerns : List (String × Nat)
deriving Repr, DecidableEq

/-- The `topicFrequency` record of `AggregatedAnalytics`. -/
structure TopicFrequency where
  safety : Nat
  sceneryLocation : Nat
  firstTimeExperience : Nat
  wouldRecommend : Nat
  issuesProblems : Nat
deriving Repr, DecidableEq

/-- The `AggregatedAnalytics` interface.  `topPositivePhrases`,
`topConcerns` and `wordCloud` keep their `(phrase, count)` pairs as pairs;
`pilotStats` is the insertion-ordered name-keyed map. -/
structure AggregatedAnalytics where
  averageSentimentScores : SentimentScores
  topicFrequency : TopicFrequency
  topPositivePhrases : List (String × Nat)
  topConcerns : List (String × Nat)
  commonHiddenCosts : List String
  improvementSuggestions : List String
  wordCloud : List (String × Nat)
  pilotStats : List (String × PilotStatsEntry)
deriving Repr, DecidableEq

/-- The fresh `pilotStats[name]` record created on a pilot's first mention;
`averageSentimentScores` doubles as the running sum before the second
pass divides it. -/
def initPilotEntry : PilotStatsEntry :=
  { totalMentions := 0
    ratings := []
    averageRating := 0
    reviews := []
    averageSentimentScores := emptySentiments
    topPositiveHighlights := []
    topConcerns := [] }

/-- Update the value of `key` in place in a name-keyed map, creating it
from `init` at the end if absent (JS `if (!stats[name]) stats[name] = init`
followed by mutation of `stats[name]`). -/
def updatePilot (m : List (String × PilotStatsEntry)) (key : String)
    (f : PilotStatsEntry → PilotStatsEntry) : List (String × PilotStatsEntry) :=
  match m with
  | [] => [(key, f initPilotEntry)]
  | (k, v) :: rest => if k = key then (k, f v) :: rest else (k, v) :: updatePilot rest key f

/-- The per-mention mutation of `pilotStats[name]` in the first
aggregation pass: bump the mention count, push the rating and review id,
accumulate the per-pilot sentiment sums.  (`pilot.sentimentScores` is
always a present object in the typed model, so the source's truthiness
guard around the sums is always taken.) -/
def pilotFirstPassUpdate (reviewId : String) (pilot : PilotMention)
    (st : PilotStatsEntry) : PilotStatsEntry :=
  { st with
    totalMentions := st.totalMentions + 1
    ratings := st.ratings ++ [pilot.rating]
    reviews := st.reviews ++ [reviewId]
    averageSentimentScores :=
      ⟨st.averageSentimentScores.overallExperience + pilot.sentimentScores.overallExperience,
       st.averageSentimentScores.safetyProfessionalism + pilot.sentimentScores.safetyProfessionalism,
       st.averageSentimentScores.valueForMoney + pilot.sentimentScores.valueForMoney,
       st.averageSentimentScores.staffServiceQuality + pilot.sentimentScores.staffServiceQuality⟩ }

/-- The first aggregation pass over one analysis's pilot list. -/
def pilotFirstPass (stats : List (String × PilotStatsEntry)) (analysis : ReviewAnalysis) :
    List (String × PilotStatsEntry) :=
  analysis.pilots.foldl
    (fun m pilot => updatePilot m pilot.pilotName (pilotFirstPassUpdate analysis.reviewId pilot)) stats

/-- The second pass over one pilot: average rating (unrounded arithmetic
mean of the rating list), rounded average sentiment, and the top-5
per-pilot highlight/concern tallies gathered by rescanning every
analysis's pilots for this exact name. -/
def pilotSecondPass (analyses : List ReviewAnalysis) (name : String)
    (st : PilotStatsEntry) : PilotStatsEntry :=
  let mentionCount : ℚ := st.totalMentions
  let pilotHighlightCounts := analyses.foldl
    (fun m analysis => analysis.pilots.foldl
      (fun m pilot => if pilot.pilotName = name then bumpAll m pilot.positiveHighlights else m) m) []
  let pilotConcernCounts := analyses.foldl
    (fun m analysis => analysis.pilots.foldl
      (fun m pilot => if pilot.pilotName = name then bumpAll m pilot.concerns else m) m) []
  { st with
    averageRating := st.ratings.foldl (· + ·) 0 / (st.ratings.length : ℚ)
    averageSentimentScores :=
      ⟨(round (st.averageSentimentScores.overallExperience / mentionCount) : ℚ),
       (round (st.averageSentimentScores.safetyProfessionalism / mentionCount) : ℚ),
       (round (st.averageSentimentScores.valueForMoney / mentionCount) : ℚ),
       (round (st.averageSentimentScores.staffServiceQuality / mentionCount) : ℚ)⟩
    topPositiveHighlights := (sortByCountDesc (entriesOf pilotHighlightCounts)).take 5
    topConcerns := (sortByCountDesc (entriesOf pilotConcernCounts)).take 5 }

/-- The all-zero/empty `AggregatedAnalytics` returned for an empty cache. -/
def emptyAggregated : AggregatedAnalytics :=
  { averageSentimentScores := emptySentiments
    topicFrequency := ⟨0, 0, 0, 0, 0⟩
    topPositivePhrases := []
    topConcerns := []
    commonHiddenCosts := []
    improvementSuggestions := []
    wordCloud := []
    pilotStats := [] }

/-- `aggregateAnalytics(cache)` of the analyze-reviews route. -/
def aggregateAnalytics (cache : AnalysisCache) : AggregatedAnalytics :=
  let analyses := cache.map (fun e => e.2)
  let count := analyses.length
  if count = 0 then emptyAggregated
  else
    let sentimentTotals : SentimentScores := analyses.foldl
      (fun t a => ⟨t.overallExperience + a.sentimentScores.overallExperience,
                   t.safetyProfessionalism + a.sentimentScores.safetyProfessionalism,
                   t.valueForMoney + a.sentimentScores.valueForMoney,
                   t.staffServiceQuality + a.sentimentScores.staffServiceQuality⟩)
      emptySentiments
    let phraseCounts := analyses.foldl (fun m a => bumpAll m a.positiveHighlights) []
    let concernCounts := analyses.foldl (fun m a => bumpAll m a.concerns) []
    let wordCounts := analyses.foldl (fun m a => bumpAll m (a.keyWords.map String.toLower)) []
    let allHiddenCosts := analyses.foldl (fun l a => l ++ a.hiddenCosts) []
    let allSuggestions := analyses.foldl (fun l a => l ++ a.suggestions) []
    let pilotStats := analyses.foldl pilotFirstPass []
    { averageSentimentScores :=
        ⟨(round (sentimentTotals.overallExperience / (count : ℚ)) : ℚ),
         (round (sentimentTotals.safetyProfessionalism / (count : ℚ)) : ℚ),
         (round (sentimentTotals.valueForMoney / (count : ℚ)) : ℚ),
         (round (sentimentTotals.staffServiceQuality / (count : ℚ)) : ℚ)⟩
      topicFrequency :=
        ⟨analyses.countP (fun a => a.topicsMentioned.safety),
         analyses.countP (fun a => a.topicsMentioned.sceneryLocation),
         analyses.countP (fun a => a.topicsMentioned.firstTimeExperience),
         analyses.countP (fun a => a.topicsMentioned.wouldRecommend),
         analyses.countP (fun a => a.topicsMentioned.issuesProblems)⟩
      topPositivePhrases := (sortByCountDesc (entriesOf phraseCounts)).take 5
      topConcerns := (sortByCountDesc (entriesOf concernCounts)).take 5
      commonHiddenCosts := (firstDedup allHiddenCosts).take 10
      improvementSuggestions := (firstDedup allSuggestions).take 10
      wordCloud := (sortByCountDesc (entriesOf wordCounts)).take 30
      pilotStats := pilotStats.map (fun e => (e.1, pilotSecondPass analyses e.1 e.2)) }

/-- Look a pilot up in the aggregated `pilotStats` map. -/
def pilotLookup? (stats : List (String × PilotStatsEntry)) (name : String) :
    Option PilotStatsEntry :=
  (stats.find? (fun e => e.1 = name)).map (fun e => e.2)

/-- The cache entry one loop iteration stores for a review, as a function
of the review's model-call outcome. -/
def entryFor (outcome : Review → ModelOutcome) (now : Review → String) (r : Review) :
    ReviewAnalysis :=
  match outcome r with
  | .okParsed p => storeEntry r p (now r)
  | .noJsonFound => storeEntry r (defaultParsedResult r) (now r)
  | .errCall => degradedEntry r (now r)

/-- Zero-defaulted read of a counter key: `counts[key] || 0`. -/
def lookupCount (m : CountMap) (key : String) : Nat :=
  ((m.find? (fun e => e.1 = key)).map (fun e => e.2)).getD 0

/-- The counter object built by bumping every string of the stream in
order, starting empty. -/
def tallyOf (ws : List String) : CountMap := ws.foldl bump []

/-- Specification-side tally: the distinct strings in first-seen order,
each paired with its exact occurrence count in the stream. -/
def specTally (ws : List String) : CountMap :=
  (firstDedup ws).map (fun s => (s, ws.count s))

/-- Every positive-highlight phrase of every cached analysis, in cache
iteration order (concatenating each analysis's list in order). -/
def allPositiveHighlights (cache : AnalysisCache) : List String :=
  (cache.map (fun e => e.2)).foldl (fun l a => l ++ a.positiveHighlights) []

/-- Every concern phrase of every cached analysis, in cache iteration
order. -/
def allConcerns (cache : AnalysisCache) : List String :=
  (cache.map (fun e => e.2)).foldl (fun l a => l ++ a.concerns) []

/-- Test fixture for the pilot-aggregation example: a review analysis
mentioning one pilot. -/
def mkPilotAnalysis (reviewId pilotName : String) (rating : ℚ) (s : SentimentScores)
    (highlights : List String) : ReviewAnalysis :=
  { reviewId := reviewId
    sentimentScores := s
    topicsMentioned := emptyTopics
    positiveHighlights := []
    concerns := []
    hiddenCosts := []
    suggestions := []
    keyWords := []
    pilots := [{ pilotName := pilotName, rating := rating, confidence := .high,
                 sentimentScores := s, positiveHighlights := highlights, concerns := [] }]
    analyzedAt := "t" }

/-- Fixture for C6: two cached analyses both mentioning pilot "Max", rated
5 and 3, both with the highlight "very professional". -/
def maxCacheA : AnalysisCache :=
  [("r1", mkPilotAnalysis "r1" "Max" 5 ⟨100, 100, 100, 100⟩ ["very professional"]),
   ("r2", mkPilotAnalysis "r2" "Max" 3 ⟨50, 50, 50, 50⟩ ["very professional"])]

/-- Fixture for C6 (exact-name grouping): two cached analyses mentioning
differently spelled pilots "Max" and "Max K.". -/
def maxCacheB : AnalysisCache :=
  [("r1", mkPilotAnalysis "r1" "Max" 5 ⟨100, 100, 100, 100⟩ ["very professional"]),
   ("r2", mkPilotAnalysis "r2" "Max K." 3 ⟨50, 50, 50, 50⟩ ["very professional"])]

/-- Test fixture: an analysis carrying only corpus-level positive
highlights. -/
def mkPhraseAnalysis (reviewId : String) (highlights : List String) : ReviewAnalysis :=
  { reviewId := reviewId
    sentimentScores := emptySentiments
    topicsMentioned := emptyTopics
    positiveHighlights := highlights
    concerns := []
    hiddenCosts := []
    suggestions := []
    keyWords := []
    pilots := []
    analyzedAt := "t" }

/-- Fixture for the phrase-ranking example: "very professional" appears in
two analyses. -/
def phraseCache : AnalysisCache :=
  [("r1", mkPhraseAnalysis "r1" ["very professional"]),
   ("r2", mkPhraseAnalysis "r2" ["very professional"])]

/-- Fixture for the tie-break counterexample: one analysis whose
highlights are "zebra" followed by the array-index-like phrase "5". -/
def zebraCache : AnalysisCache :=
  [("r1", mkPhraseAnalysis "r1" ["zebra", "5"])]

end Reviews

namespace Weather

theorem rangeMatches_iff (r : WindDirectionRange) (d : ℚ) :
    rangeMatches r d = true ↔ inRange r d := by
  unfold rangeMatches inRange
  split_ifs <;> simp

/-- C7: `calculateCloudBase(temperature, dewpoint)` equals the rounded
`ground elevation + 0.3048 * 1000 * (temperature - dewpoint) / 2.5`
in meters, and at temperature 20, dewpoint 10, ground elevation 1690 it
returns 2909. -/
theorem calculateCloudBase_spec :
    (∀ temperature dewpoint : ℚ,
      calculateCloudBase temperature dewpoint =
        round ((1690 : ℚ) + 0.3048 * 1000 * (temperature - dewpoint) / 2.5)) ∧
    calculateCloudBase 20 10 = 2909 := by
  constructor
  · intro t dp
    unfold calculateCloudBase BREITENBERG_ELEVATION
    ring_nf
  · unfold calculateCloudBase BREITENBERG_ELEVATION
    rw [round_eq]
    norm_num

/-- C3 (amended): for every configured range list and every direction,
`getWindDirectionScore` returns the score of the first configured range
containing the direction — a range whose start exceeds its end wraps the
0/360 boundary and contains `d` iff `d ≥ start` or `d ≤ end` — and
returns the fallback 50 when no configured range contains it, never an
error.  (Ranges may overlap, e.g. at shared inclusive endpoints, in which
case the earliest in configuration order wins.) -/
theorem firstContaining_cons (r : WindDirectionRange) (rs : List WindDirectionRange) (d : ℚ) :
    firstContaining (r :: rs) d = if inRange r d then some r else firstContaining rs d := by
  unfold firstContaining
  by_cases h : inRange r d
  · rw [List.find?_cons_of_pos _ (by simp [h]), if_pos h]
  · rw [List.find?_cons_of_neg _ (by simp [h]), if_neg h]

theorem getWindDirectionScore_first_match (ranges : List WindDirectionRange) (d : ℚ) :
    (∀ r, firstContaining ranges d = some r → getWindDirectionScoreIn ranges d = r.score) ∧
    (firstContaining ranges d = none → getWindDirectionScoreIn ranges d = 50) := by
  induction ranges with
  | nil => simp [firstContaining, getWindDirectionScoreIn]
  | cons head tail ih =>
    by_cases h : inRange head d
    · have hm : rangeMatches head d = true := (rangeMatches_iff head d).mpr h
      constructor
      · intro r hr
        rw [firstContaining_cons, if_pos h] at hr
        injection hr with hr
        simp [getWindDirectionScoreIn, hm, ← hr]
      · intro hr
        rw [firstContaining_cons, if_pos h] at hr
        simp at hr
    · have hm : rangeMatches head d = false := by
        cases hb : rangeMatches head d
        · rfl
        · exact absurd ((rangeMatches_iff head d).mp hb) h
      constructor
      · intro r hr
        rw [firstContaining_cons, if_neg h] at hr
        simpa [getWindDirectionScoreIn, hm] using ih.1 r hr
      · intro hr
        rw [firstContaining_cons, if_neg h] at hr
        simpa [getWindDirectionScoreIn, hm] using ih.2 hr

/-- C3 counterexample: at direction 90 two of the default configured
ranges (45–90 and 90–135, both endpoint-inclusive) contain the direction,
so there is no "exactly one configured range containing d", and the
function returns neither the score of a unique containing range nor the
fallback 50. -/
theorem getWindDirectionScore_not_unique_at_90 :
    ¬ ((∃ r ∈ WIND_DIRECTION_RANGES, inRange r 90 ∧ getWindDirectionScore 90 = r.score ∧
          ∀ r' ∈ WIND_DIRECTION_RANGES, inRange r' 90 → r' = r) ∨
       ((∀ r ∈ WIND_DIRECTION_RANGES, ¬ inRange r 90) ∧ getWindDirectionScore 90 = 50)) := by
  rintro (⟨r, hmem, hin, hscore, huniq⟩ | ⟨hnone, hfall⟩)
  · have h1 : (⟨45, 90, 100⟩ : WindDirectionRange) = r :=
      huniq _ (by simp [WIND_DIRECTION_RANGES]) (by norm_num [inRange])
    have h2 : (⟨90, 135, 90⟩ : WindDirectionRange) = r :=
      huniq _ (by simp [WIND_DIRECTION_RANGES]) (by norm_num [inRange])
    rw [← h1] at h2
    simp [WindDirectionRange.mk.injEq] at h2
  · exact hnone ⟨45, 90, 100⟩ (by simp [WIND_DIRECTION_RANGES]) (by norm_num [inRange])

/-- Witness for the amended C3 theorem: with the default configuration,
direction 30 is first contained by the 0–45 range of score 100, which is
what `getWindDirectionScore` returns; a direction of 50.5 in a
configuration with one wrapping range {315, 45} is contained by no range
and falls back to 50. -/
theorem getWindDirectionScore_first_match_witness :
    firstContaining WIND_DIRECTION_RANGES 30 = some ⟨0, 45, 100⟩ ∧
    getWindDirectionScoreIn WIND_DIRECTION_RANGES 30 = 100 ∧
    firstContaining [⟨315, 45, 80⟩] 50.5 = none ∧
    getWindDirectionScoreIn [⟨315, 45, 80⟩] 50.5 = 50 := by
  have h30 : firstContaining WIND_DIRECTION_RANGES 30 = some ⟨0, 45, 100⟩ := by
    norm_num [firstContaining, WIND_DIRECTION_RANGES, List.find?, inRange]
  have hw : firstContaining [⟨315, 45, 80⟩] 50.5 = none := by
    norm_num [firstContaining, List.find?, inRange]
  exact ⟨h30, (getWindDirectionScore_first_match WIND_DIRECTION_RANGES 30).1 _ h30,
    hw, (getWindDirectionScore_first_match [⟨315, 45, 80⟩] 50.5).2 hw⟩

theorem safetyViolationsOf_eq_nil_iff (p ws wd cb : ℚ) :
    safetyViolationsOf p ws wd cb = [] ↔
      (minRequiredCloudBase ≤ cb ∧ ws ≤ MAX_WIND_SPEED_KMH ∧ p ≤ MAX_PRECIPITATION_MM ∧
       ¬(ws > MIN_WIND_SPEED_FOR_DIRECTION_CHECK ∧ isWindDirectionDangerous wd = true)) := by
  unfold safetyViolationsOf
  split_ifs with h1 h2 h3 h4 <;> simp_all [not_lt, le_of_not_lt]

theorem calc_eq_gate (t dp p ws wd cc cb : ℚ)
    (h : safetyViolationsOf p ws wd cb ≠ []) :
    calculateTakeoffPercentage t dp p ws wd cc cb = takeoffGateResult p ws wd cc cb := by
  unfold calculateTakeoffPercentage
  rw [if_pos (List.length_pos.mpr h)]

theorem calc_eq_weighted (t dp p ws wd cc cb : ℚ)
    (h : safetyViolationsOf p ws wd cb = []) :
    calculateTakeoffPercentage t dp p ws wd cc cb = takeoffWeightedResult p ws wd cc cb := by
  unfold calculateTakeoffPercentage
  rw [if_neg (by simp [h])]

theorem mem_safetyViolationsOf (p ws wd cb : ℚ) :
    (SafetyViolation.cloudBaseLow cb minRequiredCloudBase ∈ safetyViolationsOf p ws wd cb ↔
      cb < minRequiredCloudBase) ∧
    (SafetyViolation.windTooStrong ws MAX_WIND_SPEED_KMH ∈ safetyViolationsOf p ws wd cb ↔
      ws > MAX_WIND_SPEED_KMH) ∧
    (SafetyViolation.heavyRain p MAX_PRECIPITATION_MM ∈ safetyViolationsOf p ws wd cb ↔
      p > MAX_PRECIPITATION_MM) ∧
    (SafetyViolation.dangerousDirection (getDirectionName wd) wd ws ∈ safetyViolationsOf p ws wd cb ↔
      (ws > MIN_WIND_SPEED_FOR_DIRECTION_CHECK ∧ isWindDirectionDangerous wd = true)) ∧
    (safetyViolationsOf p ws wd cb).Nodup ∧
    (safetyViolationsOf p ws wd cb).length =
      (if cb < minRequiredCloudBase then 1 else 0) + (if ws > MAX_WIND_SPEED_KMH then 1 else 0) +
      (if p > MAX_PRECIPITATION_MM then 1 else 0) +
      (if ws > MIN_WIND_SPEED_FOR_DIRECTION_CHECK ∧ isWindDirectionDangerous wd = true then 1 else 0) := by
  unfold safetyViolationsOf
  split_ifs with h1 h2 h3 h4 <;> simp_all [not_lt, lt_of_not_le, List.Nodup] <;> linarith

/-- C1: for every weather sample firing at least one of the four safety
conditions (cloud base below ground elevation plus the minimum margin;
wind speed above the maximum; precipitation above the maximum; dangerous
wind-direction score combined with wind speed above the direction-check
threshold), `calculateTakeoffPercentage` returns percentage 0, every
per-category score and points 0, total 0, and a list of distinct
violation messages naming exactly the simultaneously violated conditions,
regardless of the other inputs. -/
theorem takeoff_safety_gate (t dp p ws wd cc cb : ℚ)
    (hviol : cb < minRequiredCloudBase ∨ ws > MAX_WIND_SPEED_KMH ∨ p > MAX_PRECIPITATION_MM ∨
      (ws > MIN_WIND_SPEED_FOR_DIRECTION_CHECK ∧ isWindDirectionDangerous wd = true)) :
    (calculateTakeoffPercentage t dp p ws wd cc cb).percentage = 0 ∧
    (calculateTakeoffPercentage t dp p ws wd cc cb).breakdown.windDirection.score = 0 ∧
    (calculateTakeoffPercentage t dp p ws wd cc cb).breakdown.windDirection.points = 0 ∧
    (calculateTakeoffPercentage t dp p ws wd cc cb).breakdown.windSpeed.score = 0 ∧
    (calculateTakeoffPercentage t dp p ws wd cc cb).breakdown.windSpeed.points = 0 ∧
    (calculateTakeoffPercentage t dp p ws wd cc cb).breakdown.precipitation.score = 0 ∧
    (calculateTakeoffPercentage t dp p ws wd cc cb).breakdown.precipitation.points = 0 ∧
    (calculateTakeoffPercentage t dp p ws wd cc cb).breakdown.cloudCover.score = 0 ∧
    (calculateTakeoffPercentage t dp p ws wd cc cb).breakdown.cloudCover.points = 0 ∧
    (calculateTakeoffPercentage t dp p ws wd cc cb).breakdown.total = 0 ∧
    (calculateTakeoffPercentage t dp p ws wd cc cb).breakdown.safetyViolations ≠ [] ∧
    (calculateTakeoffPercentage t dp p ws wd cc cb).breakdown.safetyViolations.Nodup ∧
    (SafetyViolation.cloudBaseLow cb minRequiredCloudBase ∈
        (calculateTakeoffPercentage t dp p ws wd cc cb).breakdown.safetyViolations ↔
      cb < minRequiredCloudBase) ∧
    (SafetyViolation.windTooStrong ws MAX_WIND_SPEED_KMH ∈
        (calculateTakeoffPercentage t dp p ws wd cc cb).breakdown.safetyViolations ↔
      ws > MAX_WIND_SPEED_KMH) ∧
    (SafetyViolation.heavyRain p MAX_PRECIPITATION_MM ∈
        (calculateTakeoffPercentage t dp p ws wd cc cb).breakdown.safetyViolations ↔
      p > MAX_PRECIPITATION_MM) ∧
    (SafetyViolation.dangerousDirection (getDirectionName wd) wd ws ∈
        (calculateTakeoffPercentage t dp p ws wd cc cb).breakdown.safetyViolations ↔
      (ws > MIN_WIND_SPEED_FOR_DIRECTION_CHECK ∧ isWindDirectionDangerous wd = true)) := by
  have hne : safetyViolationsOf p ws wd cb ≠ [] := by
    intro hnil
    rw [safetyViolationsOf_eq_nil_iff] at hnil
    rcases hviol with h | h | h | h
    · exact absurd hnil.1 (not_le.mpr h)
    · exact absurd h (not_lt.mpr hnil.2.1)
    · exact absurd h (not_lt.mpr hnil.2.2.1)
    · exact hnil.2.2.2 h
  rw [calc_eq_gate t dp p ws wd cc cb hne]
  have hm := mem_safetyViolationsOf p ws wd cb
  exact ⟨rfl, rfl, rfl, rfl, rfl, rfl, rfl, rfl, rfl, rfl, hne, hm.2.2.2.2.1,
    hm.1, hm.2.1, hm.2.2.1, hm.2.2.2.1⟩

/-- Witness for C1: cloud base 1000 m (below the 1890 m minimum), wind
40 km/h (above the 35 km/h maximum), rain 10 mm (above the 5 mm maximum)
and a dangerous 200-degree wind at 40 km/h all fire at once: percentage 0
and all four messages present. -/
theorem takeoff_safety_gate_witness :
    (calculateTakeoffPercentage 20 10 10 40 200 50 1000).percentage = 0 ∧
    (SafetyViolation.heavyRain 10 MAX_PRECIPITATION_MM ∈
      (calculateTakeoffPercentage 20 10 10 40 200 50 1000).breakdown.safetyViolations) := by
  have hdanger : isWindDirectionDangerous 200 = true := by
    norm_num [isWindDirectionDangerous, getWindDirectionScore, getWindDirectionScoreIn,
      WIND_DIRECTION_RANGES, rangeMatches, DANGEROUS_WIND_DIRECTION_THRESHOLD]
  have h := takeoff_safety_gate 20 10 10 40 200 50 1000
    (Or.inr (Or.inr (Or.inl (by norm_num [MAX_PRECIPITATION_MM]))))
  exact ⟨h.1, (h.2.2.2.2.2.2.2.2.2.2.2.2.2.2.1).mpr (by norm_num [MAX_PRECIPITATION_MM])⟩

theorem getWindDirectionScore_ge_ten (d : ℚ) : 10 ≤ getWindDirectionScore d := by
  simp only [getWindDirectionScore, WIND_DIRECTION_RANGES, getWindDirectionScoreIn]
  split_ifs <;> norm_num

theorem getWindSpeedScore_ge_ten (ws : ℚ) : 10 ≤ getWindSpeedScore ws := by
  unfold getWindSpeedScore WIND_SPEED_0_5_SCORE WIND_SPEED_5_8_SCORE WIND_SPEED_8_24_SCORE
    WIND_SPEED_24_29_SCORE WIND_SPEED_29_35_SCORE WIND_SPEED_35_PLUS_SCORE
  split_ifs <;> norm_num

theorem precipScoreOf_nonneg (p : ℚ) : 0 ≤ precipScoreOf p := by
  unfold precipScoreOf
  split_ifs <;> simp

theorem cloudScoreOf_nonneg (cc : ℚ) : 0 ≤ cloudScoreOf cc := le_max_left 0 _

theorem precipScoreOf_of_nonneg (p : ℚ) (h : 0 ≤ p) :
    precipScoreOf p = max 0 (100 - p * PRECIPITATION_PENALTY_PER_MM) := by
  unfold precipScoreOf
  split_ifs with hp
  · rfl
  · have hz : p = 0 := le_antisymm (not_lt.mp hp) h
    subst hz
    norm_num

theorem takeoffWeightedResult_safetyViolations (p ws wd cc cb : ℚ) :
    (takeoffWeightedResult p ws wd cc cb).breakdown.safetyViolations =
      safetyViolationsOf p ws wd cb := rfl

theorem takeoffWeightedResult_percentage (p ws wd cc cb : ℚ) :
    (takeoffWeightedResult p ws wd cc cb).percentage =
      round (getWindDirectionScore wd * WEIGHT_WIND_DIRECTION / 100 +
        getWindSpeedScore ws * WEIGHT_WIND_SPEED / 100 +
        precipScoreOf p * WEIGHT_PRECIPITATION / 100 +
        cloudScoreOf cc * WEIGHT_CLOUD_COVER / 100) := rfl

theorem takeoffWeightedResult_total (p ws wd cc cb : ℚ) :
    (takeoffWeightedResult p ws wd cc cb).breakdown.total =
      round (getWindDirectionScore wd * WEIGHT_WIND_DIRECTION / 100 +
        getWindSpeedScore ws * WEIGHT_WIND_SPEED / 100 +
        precipScoreOf p * WEIGHT_PRECIPITATION / 100 +
        cloudScoreOf cc * WEIGHT_CLOUD_COVER / 100) := rfl

theorem takeoffWeightedResult_points (p ws wd cc cb : ℚ) :
    (takeoffWeightedResult p ws wd cc cb).breakdown.windDirection.points =
      (round (getWindDirectionScore wd * WEIGHT_WIND_DIRECTION / 100 * 10) : ℚ) / 10 ∧
    (takeoffWeightedResult p ws wd cc cb).breakdown.windSpeed.points =
      (round (getWindSpeedScore ws * WEIGHT_WIND_SPEED / 100 * 10) : ℚ) / 10 ∧
    (takeoffWeightedResult p ws wd cc cb).breakdown.precipitation.points =
      (round (precipScoreOf p * WEIGHT_PRECIPITATION / 100 * 10) : ℚ) / 10 ∧
    (takeoffWeightedResult p ws wd cc cb).breakdown.cloudCover.points =
      (round (cloudScoreOf cc * WEIGHT_CLOUD_COVER / 100 * 10) : ℚ) / 10 :=
  ⟨rfl, rfl, rfl, rfl⟩

theorem takeoffWeightedResult_percentage_pos (p ws wd cc cb : ℚ) :
    0 < (takeoffWeightedResult p ws wd cc cb).percentage := by
  rw [takeoffWeightedResult_percentage]
  have h1 := getWindDirectionScore_ge_ten wd
  have h2 := getWindSpeedScore_ge_ten ws
  have h3 := precipScoreOf_nonneg p
  have h4 := cloudScoreOf_nonneg cc
  have h7 : (7 : ℚ) ≤ getWindDirectionScore wd * WEIGHT_WIND_DIRECTION / 100 +
      getWindSpeedScore ws * WEIGHT_WIND_SPEED / 100 +
      precipScoreOf p * WEIGHT_PRECIPITATION / 100 +
      cloudScoreOf cc * WEIGHT_CLOUD_COVER / 100 := by
    unfold WEIGHT_WIND_DIRECTION WEIGHT_WIND_SPEED WEIGHT_PRECIPITATION WEIGHT_CLOUD_COVER
    linarith
  have : (7 : ℤ) ≤ round (getWindDirectionScore wd * WEIGHT_WIND_DIRECTION / 100 +
      getWindSpeedScore ws * WEIGHT_WIND_SPEED / 100 +
      precipScoreOf p * WEIGHT_PRECIPITATION / 100 +
      cloudScoreOf cc * WEIGHT_CLOUD_COVER / 100) := by
    rw [round_eq]
    refine Int.le_floor.mpr ?_
    push_cast
    linarith
  omega

theorem not_dangerous_at_30 : isWindDirectionDangerous 30 = false := by
  norm_num [isWindDirectionDangerous, getWindDirectionScore, getWindDirectionScoreIn,
    WIND_DIRECTION_RANGES, rangeMatches, DANGEROUS_WIND_DIRECTION_THRESHOLD]

theorem dangerous_at_200 : isWindDirectionDangerous 200 = true := by
  norm_num [isWindDirectionDangerous, getWindDirectionScore, getWindDirectionScoreIn,
    WIND_DIRECTION_RANGES, rangeMatches, DANGEROUS_WIND_DIRECTION_THRESHOLD]

/-- C9: every safety-threshold comparison is strict at its boundary: a
sample with wind speed exactly 35 km/h, or precipitation exactly 5 mm, or
cloud base exactly 1890 m (elevation plus margin), or wind speed exactly
5 km/h with a dangerous direction, is not a violation — each case yields
an empty violation list and a positive weighted percentage (the weighted
path), provided the other three conditions do not fire either. -/
theorem takeoff_boundaries_strict :
    (∀ t dp p wd cc cb : ℚ, minRequiredCloudBase ≤ cb → p ≤ MAX_PRECIPITATION_MM →
      isWindDirectionDangerous wd = false →
      (calculateTakeoffPercentage t dp p MAX_WIND_SPEED_KMH wd cc cb).breakdown.safetyViolations = [] ∧
      0 < (calculateTakeoffPercentage t dp p MAX_WIND_SPEED_KMH wd cc cb).percentage) ∧
    (∀ t dp ws wd cc cb : ℚ, minRequiredCloudBase ≤ cb → ws ≤ MAX_WIND_SPEED_KMH →
      ¬(ws > MIN_WIND_SPEED_FOR_DIRECTION_CHECK ∧ isWindDirectionDangerous wd = true) →
      (calculateTakeoffPercentage t dp MAX_PRECIPITATION_MM ws wd cc cb).breakdown.safetyViolations = [] ∧
      0 < (calculateTakeoffPercentage t dp MAX_PRECIPITATION_MM ws wd cc cb).percentage) ∧
    (∀ t dp p ws wd cc : ℚ, ws ≤ MAX_WIND_SPEED_KMH → p ≤ MAX_PRECIPITATION_MM →
      ¬(ws > MIN_WIND_SPEED_FOR_DIRECTION_CHECK ∧ isWindDirectionDangerous wd = true) →
      (calculateTakeoffPercentage t dp p ws wd cc minRequiredCloudBase).breakdown.safetyViolations = [] ∧
      0 < (calculateTakeoffPercentage t dp p ws wd cc minRequiredCloudBase).percentage) ∧
    (∀ t dp p wd cc cb : ℚ, minRequiredCloudBase ≤ cb → p ≤ MAX_PRECIPITATION_MM →
      isWindDirectionDangerous wd = true →
      (calculateTakeoffPercentage t dp p MIN_WIND_SPEED_FOR_DIRECTION_CHECK wd cc cb).breakdown.safetyViolations = [] ∧
      0 < (calculateTakeoffPercentage t dp p MIN_WIND_SPEED_FOR_DIRECTION_CHECK wd cc cb).percentage) := by
  refine ⟨fun t dp p wd cc cb h1 h2 h3 => ?_, fun t dp ws wd cc cb h1 h2 h3 => ?_,
    fun t dp p ws wd cc h1 h2 h3 => ?_, fun t dp p wd cc cb h1 h2 h3 => ?_⟩
  · have hnil : safetyViolationsOf p MAX_WIND_SPEED_KMH wd cb = [] := by
      rw [safetyViolationsOf_eq_nil_iff]
      refine ⟨h1, le_refl _, h2, ?_⟩
      rintro ⟨-, hd⟩
      rw [h3] at hd
      cases hd
    rw [calc_eq_weighted _ _ _ _ _ _ _ hnil]
    exact ⟨by rw [takeoffWeightedResult_safetyViolations, hnil],
      takeoffWeightedResult_percentage_pos _ _ _ _ _⟩
  · have hnil : safetyViolationsOf MAX_PRECIPITATION_MM ws wd cb = [] := by
      rw [safetyViolationsOf_eq_nil_iff]
      exact ⟨h1, h2, le_refl _, h3⟩
    rw [calc_eq_weighted _ _ _ _ _ _ _ hnil]
    exact ⟨by rw [takeoffWeightedResult_safetyViolations, hnil],
      takeoffWeightedResult_percentage_pos _ _ _ _ _⟩
  · have hnil : safetyViolationsOf p ws wd minRequiredCloudBase = [] := by
      rw [safetyViolationsOf_eq_nil_iff]
      exact ⟨le_refl _, h1, h2, h3⟩
    rw [calc_eq_weighted _ _ _ _ _ _ _ hnil]
    exact ⟨by rw [takeoffWeightedResult_safetyViolations, hnil],
      takeoffWeightedResult_percentage_pos _ _ _ _ _⟩
  · have hnil : safetyViolationsOf p MIN_WIND_SPEED_FOR_DIRECTION_CHECK wd cb = [] := by
      rw [safetyViolationsOf_eq_nil_iff]
      refine ⟨h1, by norm_num [MIN_WIND_SPEED_FOR_DIRECTION_CHECK, MAX_WIND_SPEED_KMH], h2, ?_⟩
      rintro ⟨hlt, -⟩
      exact lt_irrefl _ hlt
    rw [calc_eq_weighted _ _ _ _ _ _ _ hnil]
    exact ⟨by rw [takeoffWeightedResult_safetyViolations, hnil],
      takeoffWeightedResult_percentage_pos _ _ _ _ _⟩

/-- Witness for C9 (fourth boundary): wind speed exactly 5 km/h from the
dangerous 200-degree sector, with safe cloud base and no rain, yields no
violation and a positive percentage. -/
theorem takeoff_boundaries_strict_witness :
    (calculateTakeoffPercentage 20 10 0 MIN_WIND_SPEED_FOR_DIRECTION_CHECK 200 20
      2909).breakdown.safetyViolations = [] ∧
    0 < (calculateTakeoffPercentage 20 10 0 MIN_WIND_SPEED_FOR_DIRECTION_CHECK 200 20
      2909).percentage :=
  takeoff_boundaries_strict.2.2.2 20 10 0 200 20 2909
    (by norm_num [minRequiredCloudBase, BREITENBERG_ELEVATION, MIN_CLOUD_BASE_MARGIN])
    (by norm_num [MAX_PRECIPITATION_MM]) dangerous_at_200

theorem getWindDirectionScore_at_30 : getWindDirectionScore 30 = 100 := by
  norm_num [getWindDirectionScore, getWindDirectionScoreIn, WIND_DIRECTION_RANGES, rangeMatches]

theorem getWindSpeedScore_at_15 : getWindSpeedScore 15 = 100 := by
  norm_num [getWindSpeedScore, WIND_SPEED_0_5_SCORE, WIND_SPEED_5_8_SCORE, WIND_SPEED_8_24_SCORE,
    WIND_SPEED_24_29_SCORE, WIND_SPEED_29_35_SCORE, WIND_SPEED_35_PLUS_SCORE]

/-- C2: for every weather sample violating none of the four safety
thresholds (and with the physically non-negative precipitation of a
weather sample), the total and percentage are the rounded sum of the four
category points (score times weight over 100), each breakdown `points` is
its category's points rounded to one decimal, the precipitation score is
`max(0, 100 - precipitation * penalty)` and the cloud-cover score is
`max(0, 100 - cloudCover)`; with the default configuration, wind speed
15 km/h, direction 30, no rain and 20% cloud cover yield total 98. -/
theorem takeoff_weighted_total :
    (∀ t dp p ws wd cc cb : ℚ, 0 ≤ p → minRequiredCloudBase ≤ cb → ws ≤ MAX_WIND_SPEED_KMH →
      p ≤ MAX_PRECIPITATION_MM →
      ¬(ws > MIN_WIND_SPEED_FOR_DIRECTION_CHECK ∧ isWindDirectionDangerous wd = true) →
      ((calculateTakeoffPercentage t dp p ws wd cc cb).breakdown.total =
        round (getWindDirectionScore wd * WEIGHT_WIND_DIRECTION / 100 +
          getWindSpeedScore ws * WEIGHT_WIND_SPEED / 100 +
          max 0 (100 - p * PRECIPITATION_PENALTY_PER_MM) * WEIGHT_PRECIPITATION / 100 +
          max 0 (100 - cc) * WEIGHT_CLOUD_COVER / 100) ∧
       (calculateTakeoffPercentage t dp p ws wd cc cb).percentage =
         (calculateTakeoffPercentage t dp p ws wd cc cb).breakdown.total ∧
       (calculateTakeoffPercentage t dp p ws wd cc cb).breakdown.windDirection.points =
         (round (getWindDirectionScore wd * WEIGHT_WIND_DIRECTION / 100 * 10) : ℚ) / 10 ∧
       (calculateTakeoffPercentage t dp p ws wd cc cb).breakdown.windSpeed.points =
         (round (getWindSpeedScore ws * WEIGHT_WIND_SPEED / 100 * 10) : ℚ) / 10 ∧
       (calculateTakeoffPercentage t dp p ws wd cc cb).breakdown.precipitation.points =
         (round (max 0 (100 - p * PRECIPITATION_PENALTY_PER_MM) * WEIGHT_PRECIPITATION / 100 * 10) : ℚ) / 10 ∧
       (calculateTakeoffPercentage t dp p ws wd cc cb).breakdown.cloudCover.points =
         (round (max 0 (100 - cc) * WEIGHT_CLOUD_COVER / 100 * 10) : ℚ) / 10)) ∧
    (calculateTakeoffPercentage 20 10 0 15 30 20 2909).breakdown.total = 98 ∧
    (calculateTakeoffPercentage 20 10 0 15 30 20 2909).percentage = 98 := by
  have hnil30 : safetyViolationsOf 0 15 30 2909 = [] := by
    rw [safetyViolationsOf_eq_nil_iff]
    refine ⟨by norm_num [minRequiredCloudBase, BREITENBERG_ELEVATION, MIN_CLOUD_BASE_MARGIN],
      by norm_num [MAX_WIND_SPEED_KMH], by norm_num [MAX_PRECIPITATION_MM], ?_⟩
    rintro ⟨-, hd⟩
    rw [not_dangerous_at_30] at hd
    cases hd
  refine ⟨fun t dp p ws wd cc cb h0 h1 h2 h3 h4 => ?_, ?_, ?_⟩
  · have hnil : safetyViolationsOf p ws wd cb = [] := by
      rw [safetyViolationsOf_eq_nil_iff]
      exact ⟨h1, h2, h3, h4⟩
    rw [calc_eq_weighted _ _ _ _ _ _ _ hnil]
    have hp := precipScoreOf_of_nonneg p h0
    have hpts := takeoffWeightedResult_points p ws wd cc cb
    refine ⟨?_, ?_, ?_, ?_, ?_, ?_⟩
    · rw [takeoffWeightedResult_total, hp]
      rfl
    · rw [takeoffWeightedResult_percentage, takeoffWeightedResult_total]
    · exact hpts.1
    · exact hpts.2.1
    · rw [hpts.2.2.1, hp]
    · exact hpts.2.2.2
  · rw [calc_eq_weighted _ _ _ _ _ _ _ hnil30, takeoffWeightedResult_total,
      getWindDirectionScore_at_30, getWindSpeedScore_at_15]
    norm_num [precipScoreOf, cloudScoreOf, WEIGHT_WIND_DIRECTION, WEIGHT_WIND_SPEED,
      WEIGHT_PRECIPITATION, WEIGHT_CLOUD_COVER, round_eq]
  · rw [calc_eq_weighted _ _ _ _ _ _ _ hnil30, takeoffWeightedResult_percentage,
      getWindDirectionScore_at_30, getWindSpeedScore_at_15]
    norm_num [precipScoreOf, cloudScoreOf, WEIGHT_WIND_DIRECTION, WEIGHT_WIND_SPEED,
      WEIGHT_PRECIPITATION, WEIGHT_CLOUD_COVER, round_eq]

/-- Witness for C2: the universally quantified part instantiated on the
spec's own example (wind 15 km/h from 30 degrees, no rain, 20% cloud,
cloud base 2909 m). -/
theorem takeoff_weighted_total_witness :
    (calculateTakeoffPercentage 20 10 0 15 30 20 2909).breakdown.windSpeed.points =
      (round (getWindSpeedScore 15 * WEIGHT_WIND_SPEED / 100 * 10) : ℚ) / 10 :=
  (takeoff_weighted_total.1 20 10 0 15 30 20 2909 (by norm_num)
    (by norm_num [minRequiredCloudBase, BREITENBERG_ELEVATION, MIN_CLOUD_BASE_MARGIN])
    (by norm_num [MAX_WIND_SPEED_KMH]) (by norm_num [MAX_PRECIPITATION_MM])
    (by rintro ⟨-, hd⟩; rw [not_dangerous_at_30] at hd; cases hd)).2.2.2.1

end Weather

namespace Reviews

theorem cacheLookup_cons (k : String) (v : ReviewAnalysis) (rest : AnalysisCache) (id : String) :
    cacheLookup? ((k, v) :: rest) id = if k = id then some v else cacheLookup? rest id := by
  unfold cacheLookup?
  by_cases h : k = id
  · rw [List.find?_cons_of_pos _ (by simp [h]), if_pos h]
    rfl
  · rw [List.find?_cons_of_neg _ (by simp [h]), if_neg h]

theorem cacheLookup_cacheSet_self (cache : AnalysisCache) (id : String) (a : ReviewAnalysis) :
    cacheLookup? (cacheSet cache id a) id = some a := by
  induction cache with
  | nil => simp [cacheSet, cacheLookup?, List.find?]
  | cons head rest ih =>
    obtain ⟨k, v⟩ := head
    unfold cacheSet
    by_cases h : k = id
    · rw [if_pos h, cacheLookup_cons, if_pos rfl]
    · rw [if_neg h, cacheLookup_cons, if_neg h, ih]

theorem cacheLookup_cacheSet_ne (cache : AnalysisCache) (id id' : String) (a : ReviewAnalysis)
    (h : id ≠ id') : cacheLookup? (cacheSet cache id a) id' = cacheLookup? cache id' := by
  induction cache with
  | nil => simp [cacheSet, cacheLookup?, List.find?, h]
  | cons head rest ih =>
    obtain ⟨k, v⟩ := head
    unfold cacheSet
    by_cases hk : k = id
    · subst hk
      rw [if_pos rfl, cacheLookup_cons, cacheLookup_cons, if_neg h, if_neg h]
    · rw [if_neg hk, cacheLookup_cons, cacheLookup_cons, ih]

theorem cacheSet_isSome_mono (cache : AnalysisCache) (id j : String) (a : ReviewAnalysis)
    (h : (cacheLookup? cache j).isSome) : (cacheLookup? (cacheSet cache id a) j).isSome := by
  by_cases hij : id = j
  · subst hij
    rw [cacheLookup_cacheSet_self]
    rfl
  · rwa [cacheLookup_cacheSet_ne _ _ _ _ hij]

theorem analyzeStep_cache (outcome : Review → ModelOutcome) (now : Review → String)
    (st : AnalyzeState) (r : Review) :
    (analyzeStep outcome now st r).cache = cacheSet st.cache r.id (entryFor outcome now r) := by
  unfold analyzeStep entryFor
  cases outcome r <;> rfl

theorem analyzeStep_count (outcome : Review → ModelOutcome) (now : Review → String)
    (st : AnalyzeState) (r : Review) :
    (analyzeStep outcome now st r).analyzedCount =
      st.analyzedCount + (if outcome r = .errCall then 0 else 1) := by
  cases h : outcome r <;> simp [analyzeStep, h]

theorem foldl_lookup_untouched (outcome : Review → ModelOutcome) (now : Review → String)
    (l : List Review) (st : AnalyzeState) (id : String) (h : ∀ r ∈ l, r.id ≠ id) :
    cacheLookup? ((l.foldl (analyzeStep outcome now) st).cache) id = cacheLookup? st.cache id := by
  induction l generalizing st with
  | nil => rfl
  | cons x xs ih =>
    rw [List.foldl_cons, ih _ (fun r hr => h r (List.mem_cons_of_mem _ hr)),
      analyzeStep_cache]
    exact cacheLookup_cacheSet_ne _ _ _ _ (h x (List.mem_cons_self _ _))

theorem foldl_lookup_mem (outcome : Review → ModelOutcome) (now : Review → String)
    (l : List Review) (st : AnalyzeState) (r : Review) (hr : r ∈ l)
    (hnd : (l.map (fun x => x.id)).Nodup) :
    cacheLookup? ((l.foldl (analyzeStep outcome now) st).cache) r.id =
      some (entryFor outcome now r) := by
  induction l generalizing st with
  | nil => cases hr
  | cons x xs ih =>
    rw [List.map_cons, List.nodup_cons] at hnd
    rw [List.foldl_cons]
    rcases List.mem_cons.mp hr with h | h
    · subst h
      have hnot : ∀ r' ∈ xs, r'.id ≠ r.id := by
        intro r' hr' heq
        exact hnd.1 (heq ▸ List.mem_map_of_mem _ hr')
      rw [foldl_lookup_untouched outcome now xs _ _ hnot, analyzeStep_cache]
      exact cacheLookup_cacheSet_self _ _ _
    · exact ih _ h hnd.2

theorem foldl_isSome_mono (outcome : Review → ModelOutcome) (now : Review → String)
    (l : List Review) (st : AnalyzeState) (id : String)
    (h : (cacheLookup? st.cache id).isSome) :
    (cacheLookup? ((l.foldl (analyzeStep outcome now) st).cache) id).isSome := by
  induction l generalizing st with
  | nil => exact h
  | cons x xs ih =>
    rw [List.foldl_cons]
    refine ih _ ?_
    rw [analyzeStep_cache]
    exact cacheSet_isSome_mono _ _ _ _ h

theorem foldl_mem_isSome (outcome : Review → ModelOutcome) (now : Review → String)
    (l : List Review) (st : AnalyzeState) (r : Review) (hr : r ∈ l) :
    (cacheLookup? ((l.foldl (analyzeStep outcome now) st).cache) r.id).isSome := by
  induction l generalizing st with
  | nil => cases hr
  | cons x xs ih =>
    rw [List.foldl_cons]
    rcases List.mem_cons.mp hr with h | h
    · subst h
      refine foldl_isSome_mono outcome now xs _ _ ?_
      rw [analyzeStep_cache, cacheLookup_cacheSet_self]
      rfl
    · exact ih _ h

theorem foldl_count (outcome : Review → ModelOutcome) (now : Review → String)
    (l : List Review) (st : AnalyzeState) :
    (l.foldl (analyzeStep outcome now) st).analyzedCount =
      st.analyzedCount + (l.filter (fun r => outcome r ≠ .errCall)).length := by
  induction l generalizing st with
  | nil => rfl
  | cons x xs ih =>
    rw [List.foldl_cons, ih, analyzeStep_count]
    by_cases h : outcome x = .errCall
    · simp [h, List.filter_cons]
    · simp [h, List.filter_cons]
      omega

end Reviews

namespace Reviews

/-- C4: during analyze, a selected review whose model call fails (network
error, non-success status, timeout, or an exception while parsing) does
not abort the batch: it still receives a cache entry whose
overallExperience is starRating * 20, whose other three sentiment metrics
are the neutral 50, whose topic flags are all false and whose list fields
are all empty; and every review of the work set ends with some cache
entry. -/
theorem analyze_failed_call_degraded (outcome : Review → ModelOutcome) (now : Review → String)
    (reviews : List Review) (cache : AnalysisCache) (analyzeAll : Bool)
    (hnd : ((reviewsToAnalyze reviews cache analyzeAll).map (fun r => r.id)).Nodup) :
    (∀ r ∈ reviewsToAnalyze reviews cache analyzeAll, outcome r = .errCall →
      cacheLookup? ((analyze outcome now reviews cache analyzeAll).cache) r.id =
        some { reviewId := r.id
               sentimentScores := ⟨r.starRating * 20, 50, 50, 50⟩
               topicsMentioned := ⟨false, false, false, false, false⟩
               positiveHighlights := []
               concerns := []
               hiddenCosts := []
               suggestions := []
               keyWords := []
               pilots := []
               analyzedAt := now r }) ∧
    (∀ r ∈ reviewsToAnalyze reviews cache analyzeAll,
      (cacheLookup? ((analyze outcome now reviews cache analyzeAll).cache) r.id).isSome) := by
  constructor
  · intro r hr herr
    unfold analyze
    rw [foldl_lookup_mem outcome now _ _ r hr hnd]
    unfold entryFor
    rw [herr]
    rfl
  · intro r hr
    exact foldl_mem_isSome outcome now _ _ r hr

/-- Witness for C4: one selected review ("r1", 5 stars) whose call throws
ends cached with overall 100 (= 5 * 20), the rest neutral and empty. -/
theorem analyze_failed_call_degraded_witness :
    cacheLookup? ((analyze (fun _ => .errCall) (fun _ => "T")
        [⟨"r1", "A", 5, "d", "t", false, "s"⟩] [] false).cache) "r1" =
      some { reviewId := "r1"
             sentimentScores := ⟨5 * 20, 50, 50, 50⟩
             topicsMentioned := ⟨false, false, false, false, false⟩
             positiveHighlights := []
             concerns := []
             hiddenCosts := []
             suggestions := []
             keyWords := []
             pilots := []
             analyzedAt := "T" } :=
  (analyze_failed_call_degraded (fun _ => .errCall) (fun _ => "T")
      [⟨"r1", "A", 5, "d", "t", false, "s"⟩] [] false
      (by simp [reviewsToAnalyze, cacheLookup?])).1
    ⟨"r1", "A", 5, "d", "t", false, "s"⟩
    (by simp [reviewsToAnalyze, cacheLookup?]) rfl

/-- C5: after `analyze(reviews, cache, analyzeAll=false)`, every id
already present in the input cache still maps to exactly the entry it had
before, and every review whose id was absent from the input cache has an
entry in the resulting cache. -/
theorem analyze_incremental_frame (outcome : Review → ModelOutcome) (now : Review → String)
    (reviews : List Review) (cache : AnalysisCache) :
    (∀ id, (cacheLookup? cache id).isSome →
      cacheLookup? ((analyze outcome now reviews cache false).cache) id =
        cacheLookup? cache id) ∧
    (∀ r ∈ reviews, (cacheLookup? cache r.id).isNone →
      (cacheLookup? ((analyze outcome now reviews cache false).cache) r.id).isSome) := by
  constructor
  · intro id hsome
    unfold analyze
    apply foldl_lookup_untouched
    intro r hr heq
    have hmem := (List.mem_filter.mp hr).2
    simp only [Bool.false_or] at hmem
    rw [heq] at hmem
    rw [Option.isNone_iff_eq_none.mp hmem] at hsome
    cases hsome
  · intro r hr hnone
    unfold analyze
    apply foldl_mem_isSome
    refine List.mem_filter.mpr ⟨hr, ?_⟩
    simp [hnone]

/-- Witness for C5: with a one-entry input cache for "r1" and a corpus
holding "r1" and "r2", the "r1" entry survives unchanged and "r2" gains
an entry. -/
theorem analyze_incremental_frame_witness :
    (cacheLookup? ((analyze (fun _ => .errCall) (fun _ => "T")
        [⟨"r1", "A", 5, "d", "t", false, "s"⟩, ⟨"r2", "B", 4, "d", "t", false, "s"⟩]
        [("r1", mkPilotAnalysis "r1" "Max" 5 ⟨100, 100, 100, 100⟩ [])] false).cache) "r1" =
      cacheLookup? [("r1", mkPilotAnalysis "r1" "Max" 5 ⟨100, 100, 100, 100⟩ [])] "r1") ∧
    (cacheLookup? ((analyze (fun _ => .errCall) (fun _ => "T")
        [⟨"r1", "A", 5, "d", "t", false, "s"⟩, ⟨"r2", "B", 4, "d", "t", false, "s"⟩]
        [("r1", mkPilotAnalysis "r1" "Max" 5 ⟨100, 100, 100, 100⟩ [])] false).cache) "r2").isSome :=
  ⟨(analyze_incremental_frame (fun _ => .errCall) (fun _ => "T") _ _).1 "r1"
      (by simp [cacheLookup?, List.find?]),
   (analyze_incremental_frame (fun _ => .errCall) (fun _ => "T") _ _).2
      ⟨"r2", "B", 4, "d", "t", false, "s"⟩ (by simp)
      (by simp [cacheLookup?, List.find?])⟩

/-- C10: a selected review whose response text is not valid JSON and has
no brace-delimited substring gets a cache entry whose four sentiment
metrics all equal starRating * 20 (unlike the thrown-error path, which
sets the last three to 50), and it is counted in the reported number of
newly analyzed reviews: the final count is the number of selected reviews
whose outcome is not a thrown call, so a throwing review is not counted. -/
theorem analyze_no_json_default (outcome : Review → ModelOutcome) (now : Review → String)
    (reviews : List Review) (cache : AnalysisCache) (analyzeAll : Bool)
    (hnd : ((reviewsToAnalyze reviews cache analyzeAll).map (fun r => r.id)).Nodup) :
    (∀ r ∈ reviewsToAnalyze reviews cache analyzeAll, outcome r = .noJsonFound →
      cacheLookup? ((analyze outcome now reviews cache analyzeAll).cache) r.id =
        some { reviewId := r.id
               sentimentScores :=
                 ⟨r.starRating * 20, r.starRating * 20, r.starRating * 20, r.starRating * 20⟩
               topicsMentioned := ⟨false, false, false, false, false⟩
               positiveHighlights := []
               concerns := []
               hiddenCosts := []
               suggestions := []
               keyWords := []
               pilots := []
               analyzedAt := now r }) ∧
    (analyze outcome now reviews cache analyzeAll).analyzedCount =
      ((reviewsToAnalyze reviews cache analyzeAll).filter
        (fun r => outcome r ≠ .errCall)).length := by
  constructor
  · intro r hr hnoj
    unfold analyze
    rw [foldl_lookup_mem outcome now _ _ r hr hnd]
    unfold entryFor
    rw [hnoj]
    rfl
  · unfold analyze
    rw [foldl_count]
    simp

/-- Witness for C10: review "r1" (4 stars) gets no JSON back and review
"r2" throws: "r1" is cached with all four metrics 80 (= 4 * 20) and the
newly-analyzed count is 1, not 2. -/
theorem analyze_no_json_default_witness :
    cacheLookup? ((analyze
        (fun r => if r.id = "r1" then .noJsonFound else .errCall) (fun _ => "T")
        [⟨"r1", "A", 4, "d", "t", false, "s"⟩, ⟨"r2", "B", 5, "d", "t", false, "s"⟩]
        [] false).cache) "r1" =
      some { reviewId := "r1"
             sentimentScores := ⟨4 * 20, 4 * 20, 4 * 20, 4 * 20⟩
             topicsMentioned := ⟨false, false, false, false, false⟩
             positiveHighlights := []
             concerns := []
             hiddenCosts := []
             suggestions := []
             keyWords := []
             pilots := []
             analyzedAt := "T" } ∧
    (analyze (fun r => if r.id = "r1" then .noJsonFound else .errCall) (fun _ => "T")
        [⟨"r1", "A", 4, "d", "t", false, "s"⟩, ⟨"r2", "B", 5, "d", "t", false, "s"⟩]
        [] false).analyzedCount = 1 := by
  have h := analyze_no_json_default
    (fun r => if r.id = "r1" then .noJsonFound else .errCall) (fun _ => "T")
    [⟨"r1", "A", 4, "d", "t", false, "s"⟩, ⟨"r2", "B", 5, "d", "t", false, "s"⟩]
    [] false (by simp [reviewsToAnalyze, cacheLookup?])
  refine ⟨h.1 ⟨"r1", "A", 4, "d", "t", false, "s"⟩
      (by simp [reviewsToAnalyze, cacheLookup?]) (by simp), ?_⟩
  rw [h.2]
  simp [reviewsToAnalyze, cacheLookup?, List.filter]

end Reviews

namespace Reviews

/-- C6: for a cache of two analyses, one mentioning pilot "Max" rated 5
with highlight "very professional" and one mentioning "Max" rated 3 with
the same highlight, the aggregated pilotStats entry for "Max" has
totalMentions 2, ratings [5, 3] in encounter order, averageRating 4
(the unrounded arithmetic mean), and topPositiveHighlights
[("very professional", 2)]; grouping is by exact pilot-name string, so
the differently spelled "Max" and "Max K." stay distinct keys. -/
theorem aggregate_pilot_stats_example :
    pilotLookup? (aggregateAnalytics maxCacheA).pilotStats "Max" =
      some { totalMentions := 2
             ratings := [5, 3]
             averageRating := 4
             reviews := ["r1", "r2"]
             averageSentimentScores := ⟨75, 75, 75, 75⟩
             topPositiveHighlights := [("very professional", 2)]
             topConcerns := [] } ∧
    (aggregateAnalytics maxCacheB).pilotStats.map (fun e => e.1) = ["Max", "Max K."] := by
  constructor
  · norm_num [aggregateAnalytics, maxCacheA, mkPilotAnalysis, pilotFirstPass, pilotSecondPass,
      updatePilot, pilotFirstPassUpdate, initPilotEntry, emptySentiments, emptyTopics,
      pilotLookup?, bumpAll, bump, sortByCountDesc, descInsert, List.find?, round_eq]
  · have hne : ("Max" : String) ≠ "Max K." := by decide
    norm_num [aggregateAnalytics, maxCacheB, mkPilotAnalysis, pilotFirstPass, pilotSecondPass,
      updatePilot, pilotFirstPassUpdate, initPilotEntry, emptySentiments, emptyTopics,
      bumpAll, bump, sortByCountDesc, descInsert, round_eq, hne, hne.symm]

end Reviews

namespace Reviews

theorem lookupCount_cons (k : String) (c : Nat) (rest : CountMap) (j : String) :
    lookupCount ((k, c) :: rest) j = if k = j then c else lookupCount rest j := by
  unfold lookupCount
  by_cases h : k = j
  · rw [List.find?_cons_of_pos _ (by simp [h]), if_pos h]
    rfl
  · rw [List.find?_cons_of_neg _ (by simp [h]), if_neg h]

theorem bump_keys (m : CountMap) (k : String) :
    (bump m k).map (fun e => e.1) =
      if k ∈ m.map (fun e => e.1) then m.map (fun e => e.1)
      else m.map (fun e => e.1) ++ [k] := by
  induction m with
  | nil => simp [bump]
  | cons e rest ih =>
    obtain ⟨k', c⟩ := e
    unfold bump
    by_cases h : k' = k
    · subst h
      simp
    · by_cases hk : k ∈ rest.map (fun e => e.1) <;>
        simp [h, Ne.symm h, hk, ih]

theorem lookupCount_bump_self (m : CountMap) (k : String) :
    lookupCount (bump m k) k = lookupCount m k + 1 := by
  induction m with
  | nil => simp [bump, lookupCount, List.find?]
  | cons e rest ih =>
    obtain ⟨k', c⟩ := e
    unfold bump
    by_cases h : k' = k
    · subst h
      rw [if_pos rfl, lookupCount_cons, lookupCount_cons, if_pos rfl, if_pos rfl]
    · rw [if_neg h, lookupCount_cons, lookupCount_cons, if_neg h, if_neg h, ih]

theorem lookupCount_bump_ne (m : CountMap) (k j : String) (h : j ≠ k) :
    lookupCount (bump m k) j = lookupCount m j := by
  induction m with
  | nil => simp [bump, lookupCount, List.find?, Ne.symm h]
  | cons e rest ih =>
    obtain ⟨k', c⟩ := e
    unfold bump
    by_cases hk : k' = k
    · subst hk
      rw [if_pos rfl, lookupCount_cons, lookupCount_cons, if_neg (fun hj => h hj.symm),
        if_neg (fun hj => h hj.symm)]
    · rw [if_neg hk, lookupCount_cons, lookupCount_cons, ih]

theorem lookupCount_foldl_bump (ws : List String) (m : CountMap) (k : String) :
    lookupCount (ws.foldl bump m) k = lookupCount m k + ws.count k := by
  induction ws generalizing m with
  | nil => simp
  | cons w ws ih =>
    rw [List.foldl_cons, ih]
    by_cases h : w = k
    · subst h
      rw [lookupCount_bump_self, List.count_cons_self]
      omega
    · rw [lookupCount_bump_ne _ _ _ (Ne.symm h), List.count_cons_of_ne (by simpa using Ne.symm h)]

theorem firstDedupGo_congr (ws : List String) (s s' : List String)
    (h : ∀ x, x ∈ s ↔ x ∈ s') : firstDedupGo ws s = firstDedupGo ws s' := by
  induction ws generalizing s s' with
  | nil => rfl
  | cons w ws ih =>
    unfold firstDedupGo
    by_cases hw : w ∈ s
    · rw [if_pos hw, if_pos ((h w).mp hw)]
      exact ih _ _ h
    · rw [if_neg hw, if_neg (fun hc => hw ((h w).mpr hc))]
      rw [ih (w :: s) (w :: s') (by intro x; simp [h x])]

theorem firstDedupGo_cons (w : String) (ws seen : List String) :
    firstDedupGo (w :: ws) seen =
      if w ∈ seen then firstDedupGo ws seen else w :: firstDedupGo ws (w :: seen) := rfl

theorem keys_foldl_bump (ws : List String) (m : CountMap) :
    (ws.foldl bump m).map (fun e => e.1) =
      m.map (fun e => e.1) ++ firstDedupGo ws (m.map (fun e => e.1)) := by
  induction ws generalizing m with
  | nil => simp [firstDedupGo]
  | cons w ws ih =>
    rw [List.foldl_cons, ih, bump_keys, firstDedupGo_cons]
    by_cases h : w ∈ m.map (fun e => e.1)
    · simp only [if_pos h]
    · simp only [if_neg h]
      rw [firstDedupGo_congr ws (m.map (fun e => e.1) ++ [w]) (w :: m.map (fun e => e.1))
        (by intro x; simp [or_comm])]
      simp

theorem mem_firstDedupGo (ws : List String) (seen : List String) (x : String) :
    x ∈ firstDedupGo ws seen ↔ x ∈ ws ∧ x ∉ seen := by
  induction ws generalizing seen with
  | nil => simp [firstDedupGo]
  | cons w ws ih =>
    unfold firstDedupGo
    by_cases hw : w ∈ seen
    · rw [if_pos hw, ih]
      constructor
      · rintro ⟨hx, hs⟩
        exact ⟨List.mem_cons_of_mem _ hx, hs⟩
      · rintro ⟨hx, hs⟩
        rcases List.mem_cons.mp hx with h | h
        · exact absurd (h ▸ hw) hs
        · exact ⟨h, hs⟩
    · rw [if_neg hw, List.mem_cons, ih]
      constructor
      · rintro (h | ⟨hx, hs⟩)
        · subst h
          exact ⟨List.mem_cons_self _ _, hw⟩
        · exact ⟨List.mem_cons_of_mem _ hx, fun hc => hs (List.mem_cons_of_mem _ hc)⟩
      · rintro ⟨hx, hs⟩
        by_cases hxw : x = w
        · exact Or.inl hxw
        · rcases List.mem_cons.mp hx with h | h
          · exact absurd h hxw
          · exact Or.inr ⟨h, fun hc => (List.mem_cons.mp hc).elim hxw hs⟩

theorem nodup_firstDedupGo (ws : List String) (seen : List String) :
    (firstDedupGo ws seen).Nodup := by
  induction ws generalizing seen with
  | nil => simp [firstDedupGo]
  | cons w ws ih =>
    unfold firstDedupGo
    split_ifs with h
    · exact ih _
    · refine List.nodup_cons.mpr ⟨?_, ih _⟩
      rw [mem_firstDedupGo]
      rintro ⟨-, hmem⟩
      exact hmem (List.mem_cons_self _ _)

theorem keys_tallyOf (ws : List String) :
    (tallyOf ws).map (fun e => e.1) = firstDedup ws := by
  unfold tallyOf firstDedup
  rw [keys_foldl_bump]
  simp

theorem mem_lookupCount (m : CountMap) (hk : (m.map (fun e => e.1)).Nodup) (k : String)
    (c : Nat) (h : (k, c) ∈ m) : lookupCount m k = c := by
  induction m with
  | nil => cases h
  | cons e rest ih =>
    obtain ⟨k', c'⟩ := e
    rw [List.map_cons, List.nodup_cons] at hk
    rcases List.mem_cons.mp h with he | he
    · rw [Prod.mk.injEq] at he
      obtain ⟨h1, h2⟩ := he
      subst h1
      subst h2
      rw [lookupCount_cons, if_pos rfl]
    · have hne : k' ≠ k := by
        intro heq
        subst heq
        exact hk.1 (List.mem_map_of_mem (fun e => e.1) he)
      rw [lookupCount_cons, if_neg hne]
      exact ih hk.2 he

theorem pairs_eq_map (m : CountMap) (ks : List String) (v : String → Nat)
    (hkeys : m.map (fun e => e.1) = ks) (hval : ∀ e ∈ m, e.2 = v e.1) :
    m = ks.map (fun k => (k, v k)) := by
  induction m generalizing ks with
  | nil =>
    subst hkeys
    rfl
  | cons e rest ih =>
    obtain ⟨k, c⟩ := e
    subst hkeys
    simp only [List.map_cons]
    have hc : c = v k := hval (k, c) (List.mem_cons_self _ _)
    exact List.cons_eq_cons.mpr ⟨by rw [hc],
      ih (rest.map (fun e => e.1)) rfl (fun e he => hval e (List.mem_cons_of_mem _ he))⟩

theorem mem_tallyOf_count (ws : List String) (k : String) (c : Nat)
    (h : (k, c) ∈ tallyOf ws) : c = ws.count k := by
  have hnd : ((tallyOf ws).map (fun e => e.1)).Nodup := by
    rw [keys_tallyOf]
    exact nodup_firstDedupGo ws []
  have := mem_lookupCount (tallyOf ws) hnd k c h
  rw [← this]
  unfold tallyOf
  rw [lookupCount_foldl_bump]
  simp [lookupCount, List.find?]

theorem tallyOf_eq_specTally (ws : List String) : tallyOf ws = specTally ws := by
  unfold specTally
  refine pairs_eq_map _ _ _ (keys_tallyOf ws) ?_
  intro e he
  obtain ⟨k, c⟩ := e
  exact mem_tallyOf_count ws k c he

end Reviews

namespace Reviews

theorem mem_descInsert (x y : String × Nat) (l : List (String × Nat)) :
    y ∈ descInsert x l ↔ y = x ∨ y ∈ l := by
  induction l with
  | nil => simp [descInsert]
  | cons z zs ih =>
    unfold descInsert
    split_ifs with h
    · rw [List.mem_cons, ih, List.mem_cons]
      tauto
    · simp [List.mem_cons]

theorem length_descInsert (x : String × Nat) (l : List (String × Nat)) :
    (descInsert x l).length = l.length + 1 := by
  induction l with
  | nil => rfl
  | cons z zs ih =>
    unfold descInsert
    split_ifs with h
    · simp [ih]
    · simp

theorem length_sortByCountDesc (l : List (String × Nat)) :
    (sortByCountDesc l).length = l.length := by
  induction l with
  | nil => rfl
  | cons x xs ih =>
    unfold sortByCountDesc
    rw [length_descInsert, ih, List.length_cons]

theorem mem_sortByCountDesc (l : List (String × Nat)) (y : String × Nat) :
    y ∈ sortByCountDesc l ↔ y ∈ l := by
  induction l with
  | nil => simp [sortByCountDesc]
  | cons x xs ih =>
    unfold sortByCountDesc
    rw [mem_descInsert, ih, List.mem_cons]

theorem sorted_descInsert (x : String × Nat) (l : List (String × Nat))
    (h : l.Pairwise (fun a b => b.2 ≤ a.2)) :
    (descInsert x l).Pairwise (fun a b => b.2 ≤ a.2) := by
  induction l with
  | nil => simp [descInsert]
  | cons z zs ih =>
    rw [List.pairwise_cons] at h
    unfold descInsert
    split_ifs with hz
    · rw [List.pairwise_cons]
      refine ⟨?_, ih h.2⟩
      intro a ha
      rcases (mem_descInsert x a zs).mp ha with ha | ha
      · subst ha
        omega
      · exact h.1 a ha
    · rw [List.pairwise_cons]
      refine ⟨?_, List.pairwise_cons.mpr h⟩
      intro a ha
      rcases List.mem_cons.mp ha with ha | ha
      · subst ha
        omega
      · have := h.1 a ha
        omega

theorem sorted_sortByCountDesc (l : List (String × Nat)) :
    (sortByCountDesc l).Pairwise (fun a b => b.2 ≤ a.2) := by
  induction l with
  | nil => simp [sortByCountDesc]
  | cons x xs ih =>
    unfold sortByCountDesc
    exact sorted_descInsert x _ ih

theorem filter_descInsert (x : String × Nat) (l : List (String × Nat)) (c : Nat) :
    (descInsert x l).filter (fun z => z.2 == c) =
      if x.2 = c then x :: l.filter (fun z => z.2 == c)
      else l.filter (fun z => z.2 == c) := by
  induction l with
  | nil =>
    by_cases h : x.2 = c
    · simp [descInsert, List.filter_cons, h]
    · simp [descInsert, List.filter_cons, h]
  | cons z zs ih =>
    unfold descInsert
    by_cases hz : z.2 > x.2
    · by_cases hx : x.2 = c
      · have hzc : z.2 ≠ c := by omega
        simp only [if_pos hz, List.filter_cons, ih, if_pos hx]
        simp [hzc, hx]
      · simp only [if_pos hz, List.filter_cons, ih, if_neg hx]
    · by_cases hx : x.2 = c
      · simp only [if_neg hz, List.filter_cons, if_pos hx]
        simp [hx]
      · simp only [if_neg hz, List.filter_cons, if_neg hx]
        simp [hx]

theorem filter_sortByCountDesc (l : List (String × Nat)) (c : Nat) :
    (sortByCountDesc l).filter (fun z => z.2 == c) = l.filter (fun z => z.2 == c) := by
  induction l with
  | nil => rfl
  | cons x xs ih =>
    unfold sortByCountDesc
    rw [filter_descInsert, List.filter_cons]
    by_cases hx : x.2 = c <;> simp [hx, ih]

theorem filter_take_append {α : Type} (l : List α) (n : Nat) (p : α → Bool) :
    ∃ t, (l.take n).filter p ++ t = l.filter p :=
  ⟨(l.drop n).filter p, by rw [← List.filter_append, List.take_append_drop]⟩

theorem foldl_append_acc {β : Type} (xs : List β) (f : β → List String) (acc : List String) :
    xs.foldl (fun l a => l ++ f a) acc = acc ++ xs.foldl (fun l a => l ++ f a) [] := by
  induction xs generalizing acc with
  | nil => simp
  | cons a xs ih =>
    rw [List.foldl_cons, List.foldl_cons, List.nil_append, ih, ih (f a)]
    simp

theorem foldl_bumpAll_eq {β : Type} (xs : List β) (f : β → List String) (m : CountMap) :
    xs.foldl (fun m a => bumpAll m (f a)) m =
      (xs.foldl (fun l a => l ++ f a) []).foldl bump m := by
  induction xs generalizing m with
  | nil => rfl
  | cons a xs ih =>
    rw [List.foldl_cons, List.foldl_cons, ih, foldl_append_acc xs f (List.nil ++ f a)]
    rw [List.nil_append, List.foldl_append]
    rfl


theorem length_filter_split {α : Type} (l : List α) (p : α → Bool) :
    (l.filter p).length + (l.filter (fun x => !p x)).length = l.length := by
  induction l with
  | nil => rfl
  | cons x xs ih =>
    by_cases h : p x = true
    · simp only [List.filter_cons, h, Bool.not_true, List.length_cons, if_pos]
      simp only [Bool.false_eq_true, if_false]
      omega
    · rw [Bool.not_eq_true] at h
      simp only [List.filter_cons, h, Bool.not_false, List.length_cons, if_pos]
      simp only [Bool.false_eq_true, if_false]
      omega

theorem mem_idxInsert (x y : String × Nat) (l : List (String × Nat)) :
    y ∈ idxInsert x l ↔ y = x ∨ y ∈ l := by
  induction l with
  | nil => simp [idxInsert]
  | cons z zs ih =>
    unfold idxInsert
    split_ifs with h
    · rw [List.mem_cons, ih, List.mem_cons]
      tauto
    · simp [List.mem_cons]

theorem length_idxInsert (x : String × Nat) (l : List (String × Nat)) :
    (idxInsert x l).length = l.length + 1 := by
  induction l with
  | nil => rfl
  | cons z zs ih =>
    unfold idxInsert
    split_ifs with h
    · simp [ih]
    · simp

theorem length_sortByIdxAsc (l : List (String × Nat)) :
    (sortByIdxAsc l).length = l.length := by
  induction l with
  | nil => rfl
  | cons x xs ih =>
    unfold sortByIdxAsc
    rw [length_idxInsert, ih, List.length_cons]

theorem mem_sortByIdxAsc (l : List (String × Nat)) (y : String × Nat) :
    y ∈ sortByIdxAsc l ↔ y ∈ l := by
  induction l with
  | nil => simp [sortByIdxAsc]
  | cons x xs ih =>
    unfold sortByIdxAsc
    rw [mem_idxInsert, ih, List.mem_cons]

theorem mem_entriesOf (m : CountMap) (x : String × Nat) :
    x ∈ entriesOf m ↔ x ∈ m := by
  unfold entriesOf
  rw [List.mem_append, mem_sortByIdxAsc]
  constructor
  · rintro (h | h)
    · exact (List.mem_filter.mp h).1
    · exact (List.mem_filter.mp h).1
  · intro h
    by_cases hp : isArrayIndexKey x.1
    · exact Or.inl (List.mem_filter.mpr ⟨h, by simp [hp]⟩)
    · exact Or.inr (List.mem_filter.mpr ⟨h, by simp [hp]⟩)

theorem length_entriesOf (m : CountMap) : (entriesOf m).length = m.length := by
  unfold entriesOf
  rw [List.length_append, length_sortByIdxAsc]
  exact length_filter_split m (fun e => isArrayIndexKey e.1)

theorem aggregate_topPhrases_eq (cache : AnalysisCache) (h : cache ≠ []) :
    (aggregateAnalytics cache).topPositivePhrases =
      (sortByCountDesc (entriesOf (tallyOf (allPositiveHighlights cache)))).take 5 ∧
    (aggregateAnalytics cache).topConcerns =
      (sortByCountDesc (entriesOf (tallyOf (allConcerns cache)))).take 5 := by
  unfold aggregateAnalytics
  rw [if_neg (by simpa using h)]
  constructor
  · show (sortByCountDesc (entriesOf ((cache.map (fun e => e.2)).foldl
      (fun m a => bumpAll m a.positiveHighlights) []))).take 5 = _
    rw [foldl_bumpAll_eq (cache.map (fun e => e.2)) (fun a => a.positiveHighlights) []]
    rfl
  · show (sortByCountDesc (entriesOf ((cache.map (fun e => e.2)).foldl
      (fun m a => bumpAll m a.concerns) []))).take 5 = _
    rw [foldl_bumpAll_eq (cache.map (fun e => e.2)) (fun a => a.concerns) []]
    rfl

theorem take5_enum_tally_spec (ws : List String) :
    ((sortByCountDesc (entriesOf (tallyOf ws))).take 5).length =
      min 5 (firstDedup ws).length ∧
    (∀ pc ∈ (sortByCountDesc (entriesOf (tallyOf ws))).take 5, pc.2 = ws.count pc.1) ∧
    ((sortByCountDesc (entriesOf (tallyOf ws))).take 5).Pairwise (fun a b => b.2 ≤ a.2) ∧
    (∀ c : Nat, ∃ t,
      ((sortByCountDesc (entriesOf (tallyOf ws))).take 5).filter (fun pc => pc.2 == c) ++ t =
        (entriesOf (specTally ws)).filter (fun pc => pc.2 == c)) ∧
    (∀ pc ∈ (sortByCountDesc (entriesOf (tallyOf ws))).take 5,
      ∀ q ∈ entriesOf (specTally ws),
        q ∉ (sortByCountDesc (entriesOf (tallyOf ws))).take 5 → q.2 ≤ pc.2) := by
  refine ⟨?_, ?_, ?_, ?_, ?_⟩
  · rw [List.length_take, length_sortByCountDesc, length_entriesOf]
    congr 1
    rw [← keys_tallyOf ws, List.length_map]
  · intro pc hpc
    have hmem : pc ∈ tallyOf ws := (mem_entriesOf _ _).mp
      ((mem_sortByCountDesc _ _).mp (List.mem_of_mem_take hpc))
    exact mem_tallyOf_count ws pc.1 pc.2 (by simpa using hmem)
  · exact List.Pairwise.sublist (List.take_sublist _ _) (sorted_sortByCountDesc _)
  · intro c
    obtain ⟨t, ht⟩ := filter_take_append (sortByCountDesc (entriesOf (tallyOf ws))) 5
      (fun pc => pc.2 == c)
    exact ⟨t, by rw [ht, filter_sortByCountDesc, tallyOf_eq_specTally]⟩
  · intro pc hpc q hq hqnot
    have hqL : q ∈ sortByCountDesc (entriesOf (tallyOf ws)) := by
      rw [mem_sortByCountDesc, tallyOf_eq_specTally]
      exact hq
    have hsplit := List.take_append_drop 5 (sortByCountDesc (entriesOf (tallyOf ws)))
    have hpw := sorted_sortByCountDesc (entriesOf (tallyOf ws))
    rw [← hsplit] at hpw hqL
    rcases List.mem_append.mp hqL with hqt | hqd
    · exact absurd hqt hqnot
    · exact (List.pairwise_append.mp hpw).2.2 pc hpc q hqd

/-- C8 (amended): the aggregated topPositivePhrases and topConcerns tally
phrases by exact string equality across all cached analyses: each listed
pair carries its phrase's exact occurrence count, the list is ranked
descending by count, it keeps 5 of the distinct phrases and every dropped
phrase has a count no higher than any kept one; for equal counts the rank
follows the ECMAScript enumeration order of the tally object's keys —
array-index-like phrase strings first in ascending numeric order, then
the remaining phrases in first-seen order.  (For phrase sets without
array-index-like strings this is exactly the first-seen stable
tie-break.) -/
theorem aggregate_top_phrases (cache : AnalysisCache) :
    ((aggregateAnalytics cache).topPositivePhrases.length =
      min 5 (firstDedup (allPositiveHighlights cache)).length) ∧
    (∀ pc ∈ (aggregateAnalytics cache).topPositivePhrases,
      pc.2 = (allPositiveHighlights cache).count pc.1) ∧
    ((aggregateAnalytics cache).topPositivePhrases.Pairwise (fun a b => b.2 ≤ a.2)) ∧
    (∀ c : Nat, ∃ t,
      (aggregateAnalytics cache).topPositivePhrases.filter (fun pc => pc.2 == c) ++ t =
        (entriesOf (specTally (allPositiveHighlights cache))).filter (fun pc => pc.2 == c)) ∧
    (∀ pc ∈ (aggregateAnalytics cache).topPositivePhrases,
      ∀ q ∈ entriesOf (specTally (allPositiveHighlights cache)),
        q ∉ (aggregateAnalytics cache).topPositivePhrases → q.2 ≤ pc.2) ∧
    ((aggregateAnalytics cache).topConcerns.length =
      min 5 (firstDedup (allConcerns cache)).length) ∧
    (∀ pc ∈ (aggregateAnalytics cache).topConcerns,
      pc.2 = (allConcerns cache).count pc.1) ∧
    ((aggregateAnalytics cache).topConcerns.Pairwise (fun a b => b.2 ≤ a.2)) ∧
    (∀ c : Nat, ∃ t,
      (aggregateAnalytics cache).topConcerns.filter (fun pc => pc.2 == c) ++ t =
        (entriesOf (specTally (allConcerns cache))).filter (fun pc => pc.2 == c)) ∧
    (∀ pc ∈ (aggregateAnalytics cache).topConcerns,
      ∀ q ∈ entriesOf (specTally (allConcerns cache)),
        q ∉ (aggregateAnalytics cache).topConcerns → q.2 ≤ pc.2) := by
  by_cases hc : cache = []
  · subst hc
    simp [aggregateAnalytics, emptyAggregated, allPositiveHighlights, allConcerns,
      firstDedup, firstDedupGo, specTally, entriesOf, sortByIdxAsc]
  · obtain ⟨hp, hcn⟩ := aggregate_topPhrases_eq cache hc
    rw [hp, hcn]
    have A := take5_enum_tally_spec (allPositiveHighlights cache)
    have B := take5_enum_tally_spec (allConcerns cache)
    exact ⟨A.1, A.2.1, A.2.2.1, fun c => A.2.2.2.1 c, A.2.2.2.2,
      B.1, B.2.1, B.2.2.1, fun c => B.2.2.2.1 c, B.2.2.2.2⟩

/-- C8 counterexample: with one cached analysis whose highlights are
"zebra" then "5" (both occurring once), the program enumerates the
array-index-like key "5" first, so the ranked list is
[("5", 1), ("zebra", 1)] even though "zebra" was first encountered — the
claimed universal first-seen tie-break fails at this input. -/
theorem aggregate_top_phrases_not_first_seen :
    allPositiveHighlights zebraCache = ["zebra", "5"] ∧
    (aggregateAnalytics zebraCache).topPositivePhrases = [("5", 1), ("zebra", 1)] ∧
    ¬ ∃ t, (aggregateAnalytics zebraCache).topPositivePhrases.filter (fun pc => pc.2 == 1) ++ t =
        (specTally (allPositiveHighlights zebraCache)).filter (fun pc => pc.2 == 1) := by
  have hallp : allPositiveHighlights zebraCache = ["zebra", "5"] := rfl
  have hidx5 : isArrayIndexKey "5" = true := by decide
  have hidxz : isArrayIndexKey "zebra" = false := by decide
  have hne : ("zebra" : String) ≠ "5" := by decide
  have htop : (aggregateAnalytics zebraCache).topPositivePhrases = [("5", 1), ("zebra", 1)] := by
    norm_num [aggregateAnalytics, zebraCache, mkPhraseAnalysis, bumpAll, bump, entriesOf,
      sortByIdxAsc, idxInsert, sortByCountDesc, descInsert, emptySentiments, emptyTopics,
      hidx5, hidxz, hne, List.filter_cons]
  refine ⟨hallp, htop, ?_⟩
  rintro ⟨t, ht⟩
  rw [htop, hallp] at ht
  have hspec : specTally ["zebra", "5"] = [("zebra", 1), ("5", 1)] := by
    norm_num [specTally, firstDedup, firstDedupGo, hne, hne.symm, List.count_cons,
      List.count_nil]
  rw [hspec] at ht
  simp [List.filter_cons, hne] at ht

/-- Witness for the amended C8 theorem: in a cache where "very
professional" is a highlight of two analyses, the ranked pair
("very professional", 2) carries the exact occurrence count. -/
theorem aggregate_top_phrases_witness :
    (("very professional", 2) : String × Nat).2 =
      (allPositiveHighlights phraseCache).count ("very professional", 2).1 := by
  have hvp : isArrayIndexKey "very professional" = false := by decide
  exact (aggregate_top_phrases phraseCache).2.1 ("very professional", 2)
    (by norm_num [aggregateAnalytics, phraseCache, mkPhraseAnalysis, bumpAll, bump,
      sortByCountDesc, descInsert, entriesOf, sortByIdxAsc, idxInsert, hvp,
      emptySentiments, emptyTopics, List.filter_cons])

end Reviews
